import Mathlib

/-!
plabel: Brother P-touch label printer driver.

A shallow embedding of the driver package (`src/src/plabel/*.go`) and of the
parts of the command-line front end (`src/plabel.go`) that the verified
properties talk about.

Conventions of the embedding

* Go `byte`, `uint16` and `uint32` values are natural numbers; where the Go code
  relies on wrap-around the reduction modulo `2^w` is written out.
* The printer device is represented by the log of the byte slices handed to
  `self.device.Write`, oldest first.
* Text printed to stdout/stderr is not part of the driver state and is left out.
* `ProcessStatus` is a loop around `binary.Read`; the outcomes of the successive
  reads are an input of the model (`none` for a failed read, `some frame` for a
  decoded 32-byte frame).
* The wall clock is an input of the wait primitives: the list of the values
  returned by the successive calls of `TimeMilliseconds`.
-/

namespace plabel

/-! ## Constants (`plabel.go`, `printer_status.go`, `model_information.go`) -/

def VERBOSE_TRACE : Nat := 4
def VERBOSE_DEBUG : Nat := 3
def VERBOSE_INFO : Nat := 2
def VERBOSE_WARN : Nat := 1

/-- Poll interval of the loops, in milliseconds. -/
def LOOP_DELAY : Nat := 100

def COMMAND_MODE_ESCP : Nat := 0x00
def COMMAND_MODE_RASTER : Nat := 0x01
def COMMAND_MODE_TEMPLATE : Nat := 0x03

def PI_KIND : Nat := 0x02
def PI_WIDTH : Nat := 0x04
def PI_LENGTH : Nat := 0x08
def PI_QUALITY : Nat := 0x40
def PI_RECOVER : Nat := 0x80

def MEDIA_TYPE_NO_TAPE : Nat := 0x00
def MEDIA_TYPE_LAMINATED : Nat := 0x01
def MEDIA_TYPE_NON_LAMINATED : Nat := 0x03
def MEDIA_TYPE_HEAT_SHRINK : Nat := 0x11
def MEDIA_TYPE_INCOMPATIBLE : Nat := 0xff

def DATA_LINE_PIXEL_WIDTH : Nat := 128
def DATA_LINE_BUFFER_LENGTH : Nat := 16

def STATUS_PRINTING_COMPLETED : Nat := 0x01
def STATUS_ERROR : Nat := 0x02
def STATUS_PHASE_CHANGE : Nat := 0x06

def PHASE_EDITING : Nat := 0x00
def PHASE_PRINTING : Nat := 0x01

def PRINTER_P1230PC : Nat := 0x59
def PRINTER_H500 : Nat := 0x64
def PRINTER_E500 : Nat := 0x65
def PRINTER_P700 : Nat := 0x67

/-! ## Status frame (`printer_status.go`) -/

/-- The decoded status frame, field for field as `type PrinterStatus struct`. -/
structure PrinterStatus where
  PrintHeadMark : Nat
  Size : Nat
  ManufacturerCode : Nat
  SeriesCode : Nat
  ModelCode : Nat
  CountryCode : Nat
  Reserved1 : Nat
  ErrorCode : Nat
  MediaWidth : Nat
  MediaType : Nat
  Ncol : Nat
  Fonts : Nat
  JpFonts : Nat
  Mode : Nat
  Density : Nat
  MediaLength : Nat
  StatusCode : Nat
  PhaseType : Nat
  PhaseNumber : Nat
  NotificationCode : Nat
  ExpansionArea : Nat
  TapeColor : Nat
  TextColor : Nat
  HwSetting : Nat
  Reserved2 : Nat
deriving DecidableEq

/-- The zero value of `PrinterStatus` (what `new(Plabel)` holds). -/
def PrinterStatus.zero : PrinterStatus :=
  { PrintHeadMark := 0, Size := 0, ManufacturerCode := 0, SeriesCode := 0
    ModelCode := 0, CountryCode := 0, Reserved1 := 0, ErrorCode := 0
    MediaWidth := 0, MediaType := 0, Ncol := 0, Fonts := 0, JpFonts := 0
    Mode := 0, Density := 0, MediaLength := 0, StatusCode := 0, PhaseType := 0
    PhaseNumber := 0, NotificationCode := 0, ExpansionArea := 0
    TapeColor := 0, TextColor := 0, HwSetting := 0, Reserved2 := 0 }

/-- `func (self *PrinterStatus) IsValid() bool`. -/
def PrinterStatus.IsValid (self : PrinterStatus) : Bool :=
  self.PrintHeadMark == 0x80 && self.Size == 0x20 && self.ManufacturerCode == 0x42

/-! ## Model catalog (`model_information.go`) -/

structure ModelInformation where
  ModelCode : Nat
  IsValid : Bool
  ModelName : String
  PixelWidth : Nat
  Resolution : Nat
  UseCompression : Bool
  MinTapeWidth : Nat
  MaxTapeWidth : Nat
deriving DecidableEq

/-- The zero value of `ModelInformation`. -/
def ModelInformation.zero : ModelInformation :=
  ⟨0, false, "", 0, 0, false, 0, 0⟩

/-- `model_map`: the four catalog rows, keyed by model code. -/
def model_map (model_code : Nat) : Option ModelInformation :=
  if model_code = PRINTER_P1230PC then
    some ⟨PRINTER_P1230PC, true, "PT-P1230PC", 64, 180, false, 4, 12⟩
  else if model_code = PRINTER_H500 then
    some ⟨PRINTER_H500, true, "PT-H500", 128, 180, true, 4, 24⟩
  else if model_code = PRINTER_E500 then
    some ⟨PRINTER_E500, true, "PT-E500", 128, 180, true, 4, 24⟩
  else if model_code = PRINTER_P700 then
    some ⟨PRINTER_P700, true, "PT-P700", 128, 180, true, 4, 24⟩
  else
    none

/-- `func GetModelInformation(model_code byte) *ModelInformation`: the catalog row
when there is one, otherwise `ModelInformation{ModelCode: model_code, ModelName: "Unknown"}`
(the remaining fields take their zero values). -/
def GetModelInformation (model_code : Nat) : ModelInformation :=
  match model_map model_code with
  | some model_information => model_information
  | none => { ModelInformation.zero with ModelCode := model_code, ModelName := "Unknown" }

/-! ## Media geometry (`media_information.go`) -/

/-- `media_map`: tape width in mm to printable pixels at 180 dpi. -/
def media_map (media_width : Nat) : Option Nat :=
  if media_width = 4 then some 0
  else if media_width = 6 then some 0
  else if media_width = 12 then some 70
  else if media_width = 18 then some 112
  else if media_width = 24 then some 128
  else none

/-- `func MediaWidthToMaxPixel(media_width byte, dpi uint16) uint16`. -/
def MediaWidthToMaxPixel (media_width : Nat) (dpi : Nat) : Nat :=
  if dpi = 180 then
    match media_map media_width with
    | some pixel_width => pixel_width
    | none => 0
  else 0

/-! ## Driver state (`plabel.go`) -/

/-- The driver record `type Plabel struct`. The field `device` is the log of the
byte slices passed to `self.device.Write`, oldest first. -/
structure Plabel where
  device : List (List Nat)
  active : Bool
  status_updated : Bool
  is_printing : Bool
  Verbose : Nat
  Simulate : Bool
  PrinterStatus : PrinterStatus
  ModelInformation : ModelInformation
  StatusCode : Nat
  InitalSettings : Bool
  MaxPrintingWidth : Nat
deriving DecidableEq

/-- `func New() (self *Plabel)`: the zero record with `active = true`,
`Verbose = VERBOSE_DEBUG` and `MaxPrintingWidth = 128`. -/
def New : Plabel :=
  { device := []
    active := true
    status_updated := false
    is_printing := false
    Verbose := VERBOSE_DEBUG
    Simulate := false
    PrinterStatus := PrinterStatus.zero
    ModelInformation := ModelInformation.zero
    StatusCode := 0
    InitalSettings := false
    MaxPrintingWidth := 128 }

/-- The first-status latch, lines 100 to 109 of `plabel.go`: taken only while
`InitalSettings` is still false. -/
def latchInitialSettings (self : Plabel) : Plabel :=
  if !self.InitalSettings then
    let model_information := GetModelInformation self.PrinterStatus.ModelCode
    let media_max_pixel :=
      MediaWidthToMaxPixel self.PrinterStatus.MediaWidth model_information.Resolution
    { self with
      InitalSettings := true
      ModelInformation := model_information
      MaxPrintingWidth :=
        if media_max_pixel < model_information.PixelWidth then media_max_pixel
        else model_information.PixelWidth }
  else self

/-- One pass through the body of the `for self.active` loop of `ProcessStatus`,
given the outcome of `binary.Read(self.device, binary.LittleEndian, &self.PrinterStatus)`.

* `none`: the read failed; `binary.Read` fills a scratch buffer first, so
  `self.PrinterStatus` is untouched; the loop sleeps and continues.
* `some frame`: the frame has been decoded into `self.PrinterStatus`. When it is not
  valid the code prints an error and sleeps ten seconds; there is no `continue`, so
  control goes on to the latch and the status update exactly as for a valid frame. -/
def ProcessStatusIter (self : Plabel) (read : Option PrinterStatus) : Plabel :=
  match read with
  | none => self
  | some frame =>
    let self := { self with PrinterStatus := frame }
    let self := latchInitialSettings self
    let self := { self with StatusCode := self.PrinterStatus.StatusCode, status_updated := true }
    if self.PrinterStatus.StatusCode == STATUS_PHASE_CHANGE then
      { self with is_printing := self.PrinterStatus.PhaseType == PHASE_PRINTING }
    else self

/-- Milliseconds slept by one pass of the `ProcessStatus` loop: `LOOP_DELAY` after a
failed read, ten seconds after a frame that is not valid, nothing otherwise. -/
def ProcessStatusSleep (read : Option PrinterStatus) : Nat :=
  match read with
  | none => LOOP_DELAY
  | some frame => if !frame.IsValid then 10000 else 0

/-- `func (self *Plabel) ProcessStatus()` over a finite prefix of read outcomes: the
loop body runs once per outcome for as long as `self.active` holds. -/
def ProcessStatus (self : Plabel) : List (Option PrinterStatus) → Plabel
  | [] => self
  | read :: rest =>
    if self.active then ProcessStatus (ProcessStatusIter self read) rest else self

/-! ## Commands (`plabel.go`) -/

/-- `func (self *Plabel) SendCommand(command []byte)`. -/
def SendCommand (self : Plabel) (command : List Nat) : Plabel :=
  if self.Simulate then self
  else { self with device := self.device ++ [command] }

/-- `func (self *Plabel) ResetStatus()`. -/
def ResetStatus (self : Plabel) : Plabel :=
  { self with status_updated := false }

/-- `func (self *Plabel) Invalidate()`: `make([]byte, 100)` is a hundred zero bytes. -/
def Invalidate (self : Plabel) : Plabel :=
  SendCommand self (List.replicate 100 0)

/-- `func (self *Plabel) Initialize()`. -/
def Initialize (self : Plabel) : Plabel :=
  SendCommand self [0x1b, 0x40]

/-- `func (self *Plabel) RequestStatus()`. -/
def RequestStatus (self : Plabel) : Plabel :=
  SendCommand (ResetStatus self) [0x1b, 0x69, 0x53]

/-- `func (self *Plabel) Print()`. -/
def Print (self : Plabel) : Plabel :=
  let self := ResetStatus self
  let self := SendCommand self [0x0c]
  if self.Simulate then { self with StatusCode := STATUS_PRINTING_COMPLETED } else self

/-- `func (self *Plabel) PrintAndFeed()`. -/
def PrintAndFeed (self : Plabel) : Plabel :=
  let self := ResetStatus self
  let self := SendCommand self [0x1a]
  if self.Simulate then { self with StatusCode := STATUS_PRINTING_COMPLETED } else self

/-! ## Wait primitives (`plabel.go`)

Both primitives read the clock once for `start_time` and once per evaluation of the
loop condition (only when `self.active` holds, `&&` being short-circuit). The clock is
the list of the values those calls return, in order; `none` means the list ran out
before the loop ended. The driver state is the one observed by the caller and does not
change during the call (no frame arrives meanwhile). The result carries the returned
boolean and the number of `time.Sleep(LOOP_DELAY * time.Millisecond)` calls made. -/

/-- The loop of `WaitForPrinterStatus`, `deadline` being `start_time + int64(timeout)`. -/
def WaitForPrinterStatusLoop (self : Plabel) (deadline : Int) : List Int → Option (Bool × Nat)
  | [] => if self.active then none else some (false, 0)
  | now :: clock =>
    if self.active && decide (now < deadline) then
      if self.status_updated then some (true, 0)
      else (WaitForPrinterStatusLoop self deadline clock).map (fun r => (r.1, r.2 + 1))
    else some (false, 0)

/-- `func (self *Plabel) WaitForPrinterStatus(timeout uint16) bool`. -/
def WaitForPrinterStatus (self : Plabel) (timeout : Nat) : List Int → Option (Bool × Nat)
  | [] => none
  | start_time :: clock => WaitForPrinterStatusLoop self (start_time + (timeout : Int)) clock

/-- The loop of `WaitForPrintingCompleted`, `deadline` being `start_time + int64(timeout)`. -/
def WaitForPrintingCompletedLoop (self : Plabel) (deadline : Int) : List Int → Option (Bool × Nat)
  | [] => if self.active then none else some (false, 0)
  | now :: clock =>
    if self.active && decide (now < deadline) then
      if self.status_updated && !self.is_printing then some (true, 0)
      else (WaitForPrintingCompletedLoop self deadline clock).map (fun r => (r.1, r.2 + 1))
    else some (false, 0)

/-- `func (self *Plabel) WaitForPrintingCompleted(timeout uint16) bool`. -/
def WaitForPrintingCompleted (self : Plabel) (timeout : Nat) : List Int → Option (Bool × Nat)
  | [] => none
  | start_time :: clock => WaitForPrintingCompletedLoop self (start_time + (timeout : Int)) clock

/-! ## Further commands (`plabel.go`) -/

/-- `func (self *Plabel) SwitchDynamicCommandMode(mode byte)`. -/
def SwitchDynamicCommandMode (self : Plabel) (mode : Nat) : Plabel :=
  SendCommand self [0x1b, 0x69, 0x61, mode]

/-- `func (self *Plabel) SwitchRasterMode()`. -/
def SwitchRasterMode (self : Plabel) : Plabel :=
  SwitchDynamicCommandMode self COMMAND_MODE_RASTER

/-- `func (self *Plabel) SwitchEscpMode()`. -/
def SwitchEscpMode (self : Plabel) : Plabel :=
  SwitchDynamicCommandMode self COMMAND_MODE_ESCP

/-- `func (self *Plabel) SetPrintInformation(media_type byte, media_width byte,
is_starting_page bool, raster_number uint32)`. The `+=` on the `byte` flag and the
conversions `byte(...)` reduce modulo 256. -/
def SetPrintInformation (self : Plabel) (media_type media_width : Nat)
    (is_starting_page : Bool) (raster_number : Nat) : Plabel :=
  let valid_flag := PI_RECOVER
  let valid_flag :=
    if media_type > MEDIA_TYPE_NO_TAPE then (valid_flag + PI_KIND) % 256 else valid_flag
  let valid_flag := if media_width > 0 then (valid_flag + PI_WIDTH) % 256 else valid_flag
  let media_length := 0
  let starting_page := if is_starting_page then 1 else 0
  let raster_number_0 := (raster_number &&& 0x000000ff) % 256
  let raster_number_1 := ((raster_number >>> 8) &&& 0x000000ff) % 256
  let raster_number_2 := ((raster_number >>> 16) &&& 0x000000ff) % 256
  let raster_number_3 := ((raster_number >>> 24) &&& 0x000000ff) % 256
  SendCommand self [0x1B, 0x69, 0x7A, valid_flag, media_type, media_width, media_length,
    raster_number_0, raster_number_1, raster_number_2, raster_number_3, starting_page, 0x00]

/-- `func (self *Plabel) SetCutMirror(cut bool, mirror bool)`. -/
def SetCutMirror (self : Plabel) (cut mirror : Bool) : Plabel :=
  let settings := 0
  let settings := if cut then settings ||| (1 <<< 6) else settings
  let settings := if mirror then settings ||| (1 <<< 7) else settings
  SendCommand self [0x1B, 0x69, 0x4d, settings]

/-- `func (self *Plabel) SetAdvancedModeSettings(no_chain_printing bool, special_tape bool,
no_buffer_clearing bool)`. -/
def SetAdvancedModeSettings (self : Plabel)
    (no_chain_printing special_tape no_buffer_clearing : Bool) : Plabel :=
  let settings := 0
  let settings := if no_chain_printing then settings ||| (1 <<< 3) else settings
  let settings := if special_tape then settings ||| (1 <<< 4) else settings
  let settings := if no_buffer_clearing then settings ||| (1 <<< 7) else settings
  SendCommand self [0x1B, 0x69, 0x4B, settings]

/-- `func (self *Plabel) SetFeedMargins(margin_dots uint16)`. -/
def SetFeedMargins (self : Plabel) (margin_dots : Nat) : Plabel :=
  let low_octet := (margin_dots &&& 0xff) % 256
  let high_octet := ((margin_dots >>> 8) &&& 0xff) % 256
  SendCommand self [0x1B, 0x69, 0x64, low_octet, high_octet]

/-- `func (self *Plabel) SetCompression()`. -/
def SetCompression (self : Plabel) : Plabel :=
  SendCommand self [0x4D, 0x02]

/-- `func (self *Plabel) SendZeroRasterGraphics()`. -/
def SendZeroRasterGraphics (self : Plabel) : Plabel :=
  SendCommand self [0x5a]

/-- The Go builtin `copy(dst, src)` onto a window of `width` bytes that `make` has just
zeroed: the first `min(width, len(src))` bytes of `src`, then zeros. -/
def copyIntoZeroed (width : Nat) (src : List Nat) : List Nat :=
  src.take width ++ List.replicate (width - src.length) 0

/-- `func (self *Plabel) SendRasterGraphicsUncompressed(raster_data []byte)`: `rb` is the
19-byte buffer `47 10 00` followed by `copy(rb[3:19], raster_data)`. -/
def SendRasterGraphicsUncompressed (self : Plabel) (raster_data : List Nat) : Plabel :=
  let rb := [0x47, 0x10, 0x00] ++ copyIntoZeroed 16 raster_data
  SendCommand self rb

/-- `func (self *Plabel) SendRasterGraphicsCompressed(raster_data []byte)`: `rb` is the
20-byte buffer `47 11 00 10` followed by `copy(rb[4:20], raster_data)`. -/
def SendRasterGraphicsCompressed (self : Plabel) (raster_data : List Nat) : Plabel :=
  let rb := [0x47, 0x11, 0x00, 0x10] ++ copyIntoZeroed 16 raster_data
  SendCommand self rb

/-- `func (self *Plabel) SendRasterGraphics(raster_data []byte)`. -/
def SendRasterGraphics (self : Plabel) (raster_data : List Nat) : Plabel :=
  if self.ModelInformation.UseCompression then SendRasterGraphicsCompressed self raster_data
  else SendRasterGraphicsUncompressed self raster_data

/-! ## Decoding a status frame (`binary.Read` at `plabel.go:87`)

`binary.Read(r, binary.LittleEndian, &self.PrinterStatus)` first fills a buffer of
`binary.Size` bytes, failing when fewer are available, and then decodes the fields of the
struct in declaration order, without padding, each multi-byte field little-endian. A
reader below takes the buffer and the current offset and gives the value read and the next
offset. -/

/-- One `byte` field. -/
def readUint8 (b : List Nat) (off : Nat) : Nat × Nat :=
  (b.getD off 0, off + 1)

/-- One `uint16` field, little-endian. -/
def readUint16 (b : List Nat) (off : Nat) : Nat × Nat :=
  (b.getD off 0 + 256 * b.getD (off + 1) 0, off + 2)

/-- One `uint32` field, little-endian. -/
def readUint32 (b : List Nat) (off : Nat) : Nat × Nat :=
  (b.getD off 0 + 256 * b.getD (off + 1) 0 + 65536 * b.getD (off + 2) 0 +
    16777216 * b.getD (off + 3) 0, off + 4)

/-- The fields of `PrinterStatus` read one after the other in declaration order, with the
offset reached after the last one. -/
def decodePrinterStatus (b : List Nat) : PrinterStatus × Nat :=
  let (printHeadMark, off) := readUint8 b 0
  let (size, off) := readUint8 b off
  let (manufacturerCode, off) := readUint8 b off
  let (seriesCode, off) := readUint8 b off
  let (modelCode, off) := readUint8 b off
  let (countryCode, off) := readUint8 b off
  let (reserved1, off) := readUint16 b off
  let (errorCode, off) := readUint16 b off
  let (mediaWidth, off) := readUint8 b off
  let (mediaType, off) := readUint8 b off
  let (ncol, off) := readUint8 b off
  let (fonts, off) := readUint8 b off
  let (jpFonts, off) := readUint8 b off
  let (mode, off) := readUint8 b off
  let (density, off) := readUint8 b off
  let (mediaLength, off) := readUint8 b off
  let (statusCode, off) := readUint8 b off
  let (phaseType, off) := readUint8 b off
  let (phaseNumber, off) := readUint16 b off
  let (notificationCode, off) := readUint8 b off
  let (expansionArea, off) := readUint8 b off
  let (tapeColor, off) := readUint8 b off
  let (textColor, off) := readUint8 b off
  let (hwSetting, off) := readUint32 b off
  let (reserved2, off) := readUint16 b off
  ({ PrintHeadMark := printHeadMark, Size := size, ManufacturerCode := manufacturerCode
     SeriesCode := seriesCode, ModelCode := modelCode, CountryCode := countryCode
     Reserved1 := reserved1, ErrorCode := errorCode, MediaWidth := mediaWidth
     MediaType := mediaType, Ncol := ncol, Fonts := fonts, JpFonts := jpFonts, Mode := mode
     Density := density, MediaLength := mediaLength, StatusCode := statusCode
     PhaseType := phaseType, PhaseNumber := phaseNumber
     NotificationCode := notificationCode, ExpansionArea := expansionArea
     TapeColor := tapeColor, TextColor := textColor, HwSetting := hwSetting
     Reserved2 := reserved2 }, off)

/-- `binary.Size(PrinterStatus{})`: the offset reached after the last field. -/
def PrinterStatus.binarySize : Nat :=
  (decodePrinterStatus []).2

/-- `binary.Read` on the bytes the device has available: `none` when they do not fill
the frame, otherwise the record decoded from the first `binarySize` of them. -/
def binaryRead (available : List Nat) : Option PrinterStatus :=
  if available.length < PrinterStatus.binarySize then none
  else some (decodePrinterStatus (available.take PrinterStatus.binarySize)).1

/-! ## Raster packing in `SendFile` (`src/plabel.go`) -/

/-- The Go conversion `byte(v)` of an `int`: its low eight bits. -/
def toByte (v : Int) : Nat :=
  (v % 256).toNat

/-- `padding = byte((plabel.DATA_LINE_PIXEL_WIDTH-height)/2)`, the division being the
truncating division of Go on `int`. -/
def SendFile_padding (height : Int) : Nat :=
  toByte (Int.tdiv ((DATA_LINE_PIXEL_WIDTH : Int) - height) 2)

/-- The inner loop `for y := min_y; y < max_y; y++` of `SendFile` for one image column.
`pixels` lists, for `y` from `min_y` up, whether the pixel is black (`c.Y < threshold`);
`index` and `padding` are bytes, so their sum and `index += 1` wrap modulo 256. The result
is `none` when `line[octet]` is indexed out of range, which panics in Go. -/
def SendFile_pack (padding : Nat) : List Bool → Nat → List Nat → Option (List Nat)
  | [], _, line => some line
  | black :: rest, index, line =>
    if black then
      let octet := (index + padding) % 256 / 8
      if octet < line.length then
        SendFile_pack padding rest ((index + 1) % 256)
          (line.set octet (line.getD octet 0 ||| (1 <<< (7 - (index + padding) % 256 % 8))))
      else none
    else SendFile_pack padding rest ((index + 1) % 256) line

/-- The raster line `SendFile` builds for one column of `height = len(pixels)` rows:
`index = 0`, `line = make([]byte, DATA_LINE_BUFFER_LENGTH)`, then the packing loop. -/
def SendFile_line (pixels : List Bool) : Option (List Nat) :=
  SendFile_pack (SendFile_padding (pixels.length : Int)) pixels 0
    (List.replicate DATA_LINE_BUFFER_LENGTH 0)

/-- Bit `q` of a raster line counted most-significant bit first: bit `7 - q mod 8` of
byte `q / 8`. -/
def lineBit (line : List Nat) (q : Nat) : Bool :=
  (line.getD (q / 8) 0).testBit (7 - q % 8)

/-- The inverse of the packing as the specification describes it: the `n` bits from
position `p` on, read most-significant bit first. -/
def unpackLine (line : List Nat) (p n : Nat) : List Bool :=
  (List.range n).map (fun i => lineBit line (i + p))

/-- The pixel column black, white, black, white, ... of the given height. -/
def alternatingColumn (height : Nat) : List Bool :=
  (List.range height).map (fun i => i % 2 == 0)

/-! ## Cropping in `SendFile` (`src/plabel.go`) -/

/-- The vertical window of the image that `SendFile` prints: the values of `min_y`,
`max_y`, `height` and `margin` after lines 123 to 134. -/
structure Crop where
  min_y : Int
  max_y : Int
  height : Int
  margin : Int
deriving DecidableEq

/-- Lines 123 to 134 of `src/plabel.go`, from `img.Bounds().Min.Y`, `img.Bounds().Max.Y`
and `printer.MaxPrintingWidth`; `/` is the truncating division of Go on `int`, and
`margin` keeps its zero value when the image is not cropped. -/
def SendFile_crop (bounds_min_y bounds_max_y : Int) (MaxPrintingWidth : Nat) : Crop :=
  let height := bounds_max_y - bounds_min_y
  if height > (MaxPrintingWidth : Int) then
    let margin := Int.tdiv (height - (MaxPrintingWidth : Int)) 2
    let min_y := bounds_min_y + margin
    let max_y := bounds_max_y - margin
    { min_y := min_y, max_y := max_y, height := max_y - min_y, margin := margin }
  else
    { min_y := bounds_min_y, max_y := bounds_max_y, height := height, margin := 0 }

/-- The pixels the loop `for y := min_y; y < max_y; y++` visits in one image column.
`column` lists the column from `img.Bounds().Min.Y` downwards (`true` = black, that is
`c.Y < threshold`). -/
def SendFile_rows (bounds_min_y : Int) (column : List Bool) (crop : Crop) : List Bool :=
  (List.range (crop.max_y - crop.min_y).toNat).map
    (fun k => column.getD (crop.min_y + (k : Int) - bounds_min_y).toNat false)

/-- The raster line `SendFile` builds for one image column: cropping, padding from the
cropped `height`, then the packing loop on a zeroed line. The result is `none` when the
loop panics with an index out of range. -/
def SendFile_column (bounds_min_y : Int) (column : List Bool) (MaxPrintingWidth : Nat) :
    Option (List Nat) :=
  let crop := SendFile_crop bounds_min_y (bounds_min_y + (column.length : Int)) MaxPrintingWidth
  SendFile_pack (SendFile_padding crop.height) (SendFile_rows bounds_min_y column crop) 0
    (List.replicate DATA_LINE_BUFFER_LENGTH 0)

/-! ## Sequences of driver operations -/

/-- The operations a caller or the background reader can perform on a driver: a run of
the status reader over some read outcomes, the assignments `main` makes to the exported
fields `Simulate` and `Verbose`, and every method of `Plabel` that changes the record.
(`Open`, `Close`, the wait primitives and the display methods leave every field modelled
here as it is.) -/
inductive Op where
  | ProcessStatus (reads : List (Option PrinterStatus))
  | SetSimulate (value : Bool)
  | SetVerbose (value : Nat)
  | SendCommand (command : List Nat)
  | Invalidate
  | Initialize
  | RequestStatus
  | ResetStatus
  | SwitchDynamicCommandMode (mode : Nat)
  | SwitchRasterMode
  | SwitchEscpMode
  | SetPrintInformation (media_type media_width : Nat) (is_starting_page : Bool)
      (raster_number : Nat)
  | SetCutMirror (cut mirror : Bool)
  | SetAdvancedModeSettings (no_chain_printing special_tape no_buffer_clearing : Bool)
  | SetFeedMargins (margin_dots : Nat)
  | Print
  | PrintAndFeed
  | SetCompression
  | SendZeroRasterGraphics
  | SendRasterGraphics (raster_data : List Nat)

/-- The effect of one operation on the driver. -/
def applyOp (s : Plabel) : Op → Plabel
  | .ProcessStatus reads => ProcessStatus s reads
  | .SetSimulate value => { s with Simulate := value }
  | .SetVerbose value => { s with Verbose := value }
  | .SendCommand command => SendCommand s command
  | .Invalidate => Invalidate s
  | .Initialize => Initialize s
  | .RequestStatus => RequestStatus s
  | .ResetStatus => ResetStatus s
  | .SwitchDynamicCommandMode mode => SwitchDynamicCommandMode s mode
  | .SwitchRasterMode => SwitchRasterMode s
  | .SwitchEscpMode => SwitchEscpMode s
  | .SetPrintInformation media_type media_width is_starting_page raster_number =>
    SetPrintInformation s media_type media_width is_starting_page raster_number
  | .SetCutMirror cut mirror => SetCutMirror s cut mirror
  | .SetAdvancedModeSettings no_chain_printing special_tape no_buffer_clearing =>
    SetAdvancedModeSettings s no_chain_printing special_tape no_buffer_clearing
  | .SetFeedMargins margin_dots => SetFeedMargins s margin_dots
  | .Print => Print s
  | .PrintAndFeed => PrintAndFeed s
  | .SetCompression => SetCompression s
  | .SendZeroRasterGraphics => SendZeroRasterGraphics s
  | .SendRasterGraphics raster_data => SendRasterGraphics s raster_data

/-- The driver after a sequence of operations, oldest first. -/
def runOps (s : Plabel) : List Op → Plabel
  | [] => s
  | op :: rest => runOps (applyOp s op) rest

/-! ## Sample inputs used by the closed statements below -/

/-- A fully read frame that is not valid (manufacturer byte `0x41` instead of `0x42`): it
announces model `0x59`, tape width 12 mm, status "phase change", phase "printing". -/
def invalidFrame : PrinterStatus :=
  { PrinterStatus.zero with
    PrintHeadMark := 0x80, Size := 0x20, ManufacturerCode := 0x41
    ModelCode := 0x59, MediaWidth := 12, StatusCode := 0x06, PhaseType := 0x01 }

/-- A valid frame: model `0x64`, tape width 24 mm, status "phase change", phase "printing". -/
def frameH500Printing : PrinterStatus :=
  { PrinterStatus.zero with
    PrintHeadMark := 0x80, Size := 0x20, ManufacturerCode := 0x42
    ModelCode := 0x64, MediaWidth := 24, StatusCode := 0x06, PhaseType := 0x01 }

/-- A valid frame: model `0x64`, tape width 4 mm, status "reply to status request". -/
def frameH500Tape4 : PrinterStatus :=
  { PrinterStatus.zero with
    PrintHeadMark := 0x80, Size := 0x20, ManufacturerCode := 0x42
    ModelCode := 0x64, MediaWidth := 4 }

/-- A valid frame: model `0x59`, tape width 12 mm, status "reply to status request". -/
def frameP1230Tape12 : PrinterStatus :=
  { PrinterStatus.zero with
    PrintHeadMark := 0x80, Size := 0x20, ManufacturerCode := 0x42
    ModelCode := 0x59, MediaWidth := 12 }

/-- A fresh driver switched to simulate mode, as `main` does after `New()`. -/
def simulated : Plabel :=
  { New with Simulate := true }

/-- A fresh driver on which a status frame has already raised `status_updated`. -/
def statusReady : Plabel :=
  { New with status_updated := true }

/-! ## Properties of the status reader -/

/-- Fields that no pass of the reader loop touches. -/
theorem ProcessStatusIter_frame (s : Plabel) (read : Option PrinterStatus) :
    (ProcessStatusIter s read).device = s.device ∧
    (ProcessStatusIter s read).active = s.active ∧
    (ProcessStatusIter s read).Verbose = s.Verbose ∧
    (ProcessStatusIter s read).Simulate = s.Simulate := by
  cases read with
  | none => exact ⟨rfl, rfl, rfl, rfl⟩
  | some f =>
    simp only [ProcessStatusIter, latchInitialSettings]
    split_ifs <;> exact ⟨rfl, rfl, rfl, rfl⟩

/-- After a pass that read a frame, the latch is set and `PrinterStatus` is the frame. -/
theorem ProcessStatusIter_some (s : Plabel) (f : PrinterStatus) :
    (ProcessStatusIter s (some f)).InitalSettings = true ∧
    (ProcessStatusIter s (some f)).PrinterStatus = f ∧
    (ProcessStatusIter s (some f)).StatusCode = f.StatusCode ∧
    (ProcessStatusIter s (some f)).status_updated = true := by
  simp only [ProcessStatusIter, latchInitialSettings]
  split_ifs <;> simp_all

/-- Once the latch is set, a pass keeps `ModelInformation` and `MaxPrintingWidth`. -/
theorem ProcessStatusIter_latched (s : Plabel) (read : Option PrinterStatus)
    (h : s.InitalSettings = true) :
    (ProcessStatusIter s read).ModelInformation = s.ModelInformation ∧
    (ProcessStatusIter s read).MaxPrintingWidth = s.MaxPrintingWidth := by
  cases read with
  | none => exact ⟨rfl, rfl⟩
  | some f =>
    simp only [ProcessStatusIter, latchInitialSettings, h]
    split_ifs <;> simp_all

/-- While the latch is open, a pass that read a frame resolves the model from that
frame and takes the smaller of the native and the tape-derived width. -/
theorem ProcessStatusIter_unlatched (s : Plabel) (f : PrinterStatus)
    (h : s.InitalSettings = false) :
    (ProcessStatusIter s (some f)).ModelInformation = GetModelInformation f.ModelCode ∧
    (ProcessStatusIter s (some f)).MaxPrintingWidth =
      min (GetModelInformation f.ModelCode).PixelWidth
        (MediaWidthToMaxPixel f.MediaWidth (GetModelInformation f.ModelCode).Resolution) := by
  simp only [ProcessStatusIter, latchInitialSettings, h]
  split_ifs <;> simp_all <;> omega

/-- The effect of a pass on `is_printing`. -/
theorem ProcessStatusIter_is_printing (s : Plabel) (f : PrinterStatus) :
    (ProcessStatusIter s (some f)).is_printing =
      if f.StatusCode = STATUS_PHASE_CHANGE then (f.PhaseType == PHASE_PRINTING)
      else s.is_printing := by
  simp only [ProcessStatusIter, latchInitialSettings]
  split_ifs <;> simp_all

/-- The reader loop on one and on two read outcomes, for an active driver. -/
theorem ProcessStatus_one (s : Plabel) (r : Option PrinterStatus) (h : s.active = true) :
    ProcessStatus s [r] = ProcessStatusIter s r := by
  simp [ProcessStatus, h]

theorem ProcessStatus_two (s : Plabel) (r1 r2 : Option PrinterStatus) (h : s.active = true) :
    ProcessStatus s [r1, r2] = ProcessStatusIter (ProcessStatusIter s r1) r2 := by
  have h2 : (ProcessStatusIter s r1).active = true := by
    rw [(ProcessStatusIter_frame s r1).2.1]; exact h
  simp [ProcessStatus, h, h2]


/-- C1 (as stated, refuted): it is not the case that every frame that fails `IsValid`
leaves `PrinterStatus`, `StatusCode`, `status_updated` and `is_printing` as they were.
On a fresh driver the frame `invalidFrame` changes all four. -/
theorem invalid_frame_changes_state :
    invalidFrame.IsValid = false ∧
    (ProcessStatus New [some invalidFrame]).PrinterStatus ≠ New.PrinterStatus ∧
    (ProcessStatus New [some invalidFrame]).StatusCode ≠ New.StatusCode ∧
    (ProcessStatus New [some invalidFrame]).status_updated ≠ New.status_updated ∧
    (ProcessStatus New [some invalidFrame]).is_printing ≠ New.is_printing ∧
    ¬ (∀ (s : Plabel) (f : PrinterStatus), f.IsValid = false →
        (ProcessStatusIter s (some f)).PrinterStatus = s.PrinterStatus ∧
        (ProcessStatusIter s (some f)).StatusCode = s.StatusCode ∧
        (ProcessStatusIter s (some f)).status_updated = s.status_updated ∧
        (ProcessStatusIter s (some f)).is_printing = s.is_printing) := by
  refine ⟨by decide, by decide, by decide, by decide, by decide, ?_⟩
  intro h
  have h1 := (h New invalidFrame (by decide)).2.2.1
  revert h1
  decide

/-- C1 (amended): a frame is discarded as a whole only when the read itself fails, in
which case the driver state is unchanged. A fully read frame that fails `IsValid` has
been decoded in place: afterwards `PrinterStatus` is that frame. Such a frame leaves the
device log, `active`, `Verbose` and `Simulate` unchanged and, once the first-status
latch is set, `ModelInformation` and `MaxPrintingWidth` as well. -/
theorem invalid_frame_overwrites_status (s : Plabel) (f : PrinterStatus)
    (hf : f.IsValid = false) :
    ProcessStatusIter s none = s ∧
    (ProcessStatusIter s (some f)).PrinterStatus = f ∧
    (ProcessStatusIter s (some f)).device = s.device ∧
    (ProcessStatusIter s (some f)).active = s.active ∧
    (ProcessStatusIter s (some f)).Verbose = s.Verbose ∧
    (ProcessStatusIter s (some f)).Simulate = s.Simulate ∧
    (s.InitalSettings = true →
      (ProcessStatusIter s (some f)).ModelInformation = s.ModelInformation ∧
      (ProcessStatusIter s (some f)).MaxPrintingWidth = s.MaxPrintingWidth) := by
  have _ := hf
  refine ⟨rfl, ?_, ?_, ?_, ?_, ?_, ?_⟩ <;>
    simp only [ProcessStatusIter, latchInitialSettings] <;>
    split_ifs <;> simp_all

theorem invalid_frame_overwrites_status_witness :
    invalidFrame.IsValid = false ∧
    (ProcessStatusIter New (some invalidFrame)).PrinterStatus = invalidFrame :=
  ⟨by decide, (invalid_frame_overwrites_status New invalidFrame (by decide)).2.1⟩

/-- C2: `IsValid` holds exactly when the head mark is `0x80`, the size `0x20` and the
manufacturer code `0x42`; replacing any one of the three fields of a valid frame by a
different value gives a frame that is not valid; and two frames that agree on the three
fields have the same validity, whatever their other fields. -/
theorem IsValid_iff_signature (f g : PrinterStatus) :
    (f.IsValid = true ↔
      f.PrintHeadMark = 0x80 ∧ f.Size = 0x20 ∧ f.ManufacturerCode = 0x42) ∧
    (f.IsValid = true → ∀ v, v ≠ f.PrintHeadMark →
      PrinterStatus.IsValid { f with PrintHeadMark := v } = false) ∧
    (f.IsValid = true → ∀ v, v ≠ f.Size →
      PrinterStatus.IsValid { f with Size := v } = false) ∧
    (f.IsValid = true → ∀ v, v ≠ f.ManufacturerCode →
      PrinterStatus.IsValid { f with ManufacturerCode := v } = false) ∧
    (f.PrintHeadMark = g.PrintHeadMark → f.Size = g.Size →
      f.ManufacturerCode = g.ManufacturerCode → f.IsValid = g.IsValid) := by
  have key : ∀ x : PrinterStatus, x.IsValid = true ↔
      x.PrintHeadMark = 0x80 ∧ x.Size = 0x20 ∧ x.ManufacturerCode = 0x42 := by
    intro x
    simp [PrinterStatus.IsValid, and_assoc]
  refine ⟨key f, ?_, ?_, ?_, ?_⟩
  · intro hv v hne
    obtain ⟨h1, _, _⟩ := (key f).1 hv
    rw [Bool.eq_false_iff]
    intro hc
    exact hne (by rw [h1]; exact ((key _).1 hc).1)
  · intro hv v hne
    obtain ⟨_, h2, _⟩ := (key f).1 hv
    rw [Bool.eq_false_iff]
    intro hc
    exact hne (by rw [h2]; exact ((key _).1 hc).2.1)
  · intro hv v hne
    obtain ⟨_, _, h3⟩ := (key f).1 hv
    rw [Bool.eq_false_iff]
    intro hc
    exact hne (by rw [h3]; exact ((key _).1 hc).2.2)
  · intro h1 h2 h3
    simp [PrinterStatus.IsValid, h1, h2, h3]

theorem IsValid_iff_signature_witness :
    frameH500Printing.IsValid = true ∧
    PrinterStatus.IsValid { frameH500Printing with Size := 0x21 } = false ∧
    frameH500Printing.IsValid = frameP1230Tape12.IsValid :=
  ⟨by decide,
   (IsValid_iff_signature frameH500Printing frameP1230Tape12).2.2.1 (by decide) 0x21
     (by decide),
   (IsValid_iff_signature frameH500Printing frameP1230Tape12).2.2.2.2 rfl rfl rfl⟩

/-- C3: starting from a fresh driver (whatever `Simulate` and `Verbose` are set to
afterwards), processing a second frame after a first one leaves `MaxPrintingWidth` and
`ModelInformation` at the values they had after the first frame, also when the second
frame reports another tape width or model code. This holds for all frames, in
particular for two valid ones. -/
theorem latch_frozen_after_first_frame ( sim : Bool) (verbose : Nat)
    (f1 f2 : PrinterStatus) :
    (ProcessStatus { New with Simulate := sim, Verbose := verbose }
        [some f1, some f2]).MaxPrintingWidth =
      (ProcessStatus { New with Simulate := sim, Verbose := verbose }
        [some f1]).MaxPrintingWidth ∧
    (ProcessStatus { New with Simulate := sim, Verbose := verbose }
        [some f1, some f2]).ModelInformation =
      (ProcessStatus { New with Simulate := sim, Verbose := verbose }
        [some f1]).ModelInformation := by
  have ha : ({ New with Simulate := sim, Verbose := verbose } : Plabel).active = true := rfl
  rw [ProcessStatus_two _ _ _ ha, ProcessStatus_one _ _ ha]
  have hl := (ProcessStatusIter_some { New with Simulate := sim, Verbose := verbose } f1).1
  have hk := ProcessStatusIter_latched _ (some f2) hl
  exact ⟨hk.2, hk.1⟩

/-- C4 (the code at the failing input): on a fresh driver an invalid frame announcing
model `0x59` and tape width 12 already sets `InitalSettings` and latches the model and
width from its own fields; the valid frame that follows (model `0x64`, tape width 24)
no longer changes them, so the model stays "PT-P1230PC" and the width 64 instead of
"PT-H500" and 128. -/
theorem invalid_frame_takes_latch :
    invalidFrame.IsValid = false ∧ frameH500Printing.IsValid = true ∧
    (ProcessStatus New [some invalidFrame]).InitalSettings = true ∧
    (ProcessStatus New [some invalidFrame, some frameH500Printing]).ModelInformation =
      GetModelInformation invalidFrame.ModelCode ∧
    (ProcessStatus New [some invalidFrame, some frameH500Printing]).ModelInformation ≠
      GetModelInformation frameH500Printing.ModelCode ∧
    (ProcessStatus New [some invalidFrame, some frameH500Printing]).ModelInformation.ModelName =
      "PT-P1230PC" ∧
    (ProcessStatus New [some invalidFrame, some frameH500Printing]).MaxPrintingWidth = 64 ∧
    min (GetModelInformation frameH500Printing.ModelCode).PixelWidth
      (MediaWidthToMaxPixel frameH500Printing.MediaWidth
        (GetModelInformation frameH500Printing.ModelCode).Resolution) = 128 := by
  refine ⟨by decide, by decide, by decide, by decide, by decide, by decide, by decide,
    by decide⟩

/-- C5 (as stated, refuted): a valid first frame of model `0x64` with tape width 4 has a
tape-derived maximum of 0, and the driver then sets `MaxPrintingWidth` to 0, not to the
native pixel width 128. -/
theorem zero_tape_maximum_gives_zero_width :
    frameH500Tape4.IsValid = true ∧
    MediaWidthToMaxPixel frameH500Tape4.MediaWidth
      (ProcessStatus New [some frameH500Tape4]).ModelInformation.Resolution = 0 ∧
    (ProcessStatus New [some frameH500Tape4]).ModelInformation.PixelWidth = 128 ∧
    (ProcessStatus New [some frameH500Tape4]).MaxPrintingWidth = 0 ∧
    (ProcessStatus New [some frameH500Tape4]).MaxPrintingWidth ≠
      (ProcessStatus New [some frameH500Tape4]).ModelInformation.PixelWidth := by
  refine ⟨by decide, by decide, by decide, by decide, by decide⟩

/-- C5 (amended): when the first valid frame is processed (the latch being open and the
driver active), `ModelInformation` becomes the catalog entry of the frame's model code and
`MaxPrintingWidth` becomes the minimum of the model's native `PixelWidth` and
`MediaWidthToMaxPixel(MediaWidth, Resolution)` in every case. A tape-derived maximum of 0
is not treated as unknown: it gives `MaxPrintingWidth = 0`. -/
theorem first_frame_width_is_plain_minimum (s : Plabel) (f : PrinterStatus)
    (hactive : s.active = true) (hlatch : s.InitalSettings = false)
    (hvalid : f.IsValid = true) :
    (ProcessStatus s [some f]).ModelInformation = GetModelInformation f.ModelCode ∧
    (ProcessStatus s [some f]).MaxPrintingWidth =
      min (ProcessStatus s [some f]).ModelInformation.PixelWidth
        (MediaWidthToMaxPixel f.MediaWidth
          (ProcessStatus s [some f]).ModelInformation.Resolution) ∧
    (MediaWidthToMaxPixel f.MediaWidth
        (ProcessStatus s [some f]).ModelInformation.Resolution = 0 →
      (ProcessStatus s [some f]).MaxPrintingWidth = 0) := by
  have _ := hvalid
  rw [ProcessStatus_one s _ hactive]
  obtain ⟨hm, hw⟩ := ProcessStatusIter_unlatched s f hlatch
  rw [hm, hw]
  refine ⟨rfl, rfl, ?_⟩
  intro h0
  rw [h0]
  exact Nat.min_zero _

theorem first_frame_width_is_plain_minimum_witness :
    (ProcessStatus New [some frameP1230Tape12]).ModelInformation = GetModelInformation 0x59 ∧
    (ProcessStatus New [some frameP1230Tape12]).MaxPrintingWidth = min 64 70 :=
  ⟨(first_frame_width_is_plain_minimum New frameP1230Tape12 rfl rfl (by decide)).1,
   (first_frame_width_is_plain_minimum New frameP1230Tape12 rfl rfl (by decide)).2.1⟩

/-- C6: after a valid frame `f` has been processed by an active driver, `StatusCode` is
`f.StatusCode` and `status_updated` is true; when `f.StatusCode` is `STATUS_PHASE_CHANGE`
(`0x06`), `is_printing` is `f.PhaseType == PHASE_PRINTING` (`0x01`), and for every other
status code `is_printing` is unchanged. On a fresh driver the valid frame with model
`0x64`, status `0x06`, phase type `0x01` and tape width 24 gives `is_printing = true`,
model name "PT-H500" and `MaxPrintingWidth = 128`. -/
theorem valid_frame_updates_status (s : Plabel) (f : PrinterStatus)
    (hactive : s.active = true) (hvalid : f.IsValid = true) :
    (ProcessStatus s [some f]).StatusCode = f.StatusCode ∧
    (ProcessStatus s [some f]).status_updated = true ∧
    (f.StatusCode = STATUS_PHASE_CHANGE →
      (ProcessStatus s [some f]).is_printing = (f.PhaseType == PHASE_PRINTING)) ∧
    (f.StatusCode ≠ STATUS_PHASE_CHANGE →
      (ProcessStatus s [some f]).is_printing = s.is_printing) ∧
    (frameH500Printing.IsValid = true ∧ frameH500Printing.ModelCode = 0x64 ∧
      frameH500Printing.StatusCode = 0x06 ∧ frameH500Printing.PhaseType = 0x01 ∧
      frameH500Printing.MediaWidth = 24 ∧
      (ProcessStatus New [some frameH500Printing]).is_printing = true ∧
      (ProcessStatus New [some frameH500Printing]).ModelInformation.ModelName = "PT-H500" ∧
      (ProcessStatus New [some frameH500Printing]).MaxPrintingWidth = 128) := by
  have _ := hvalid
  rw [ProcessStatus_one s _ hactive]
  obtain ⟨_, _, hc, hu⟩ := ProcessStatusIter_some s f
  have hp := ProcessStatusIter_is_printing s f
  refine ⟨hc, hu, ?_, ?_, ?_⟩
  · intro h; rw [hp, if_pos h]
  · intro h; rw [hp, if_neg h]
  · refine ⟨by decide, by decide, by decide, by decide, by decide, by decide, by decide,
      by decide⟩

theorem valid_frame_updates_status_witness :
    (ProcessStatus New [some frameH500Printing]).StatusCode = 0x06 ∧
    (ProcessStatus New [some frameH500Printing]).status_updated = true :=
  ⟨(valid_frame_updates_status New frameH500Printing rfl (by decide)).1,
   (valid_frame_updates_status New frameH500Printing rfl (by decide)).2.1⟩

/-! ## Properties of the commands and of the wait primitives -/

/-- While "status updated and not printing" is false, the completion wait never
answers true. -/
theorem WaitForPrintingCompletedLoop_false (s : Plabel)
    (h : (s.status_updated && !s.is_printing) = false) (deadline : Int) :
    ∀ (clock : List Int) (r : Bool × Nat),
      WaitForPrintingCompletedLoop s deadline clock = some r → r.1 = false := by
  intro clock
  induction clock with
  | nil =>
    intro r hr
    simp only [WaitForPrintingCompletedLoop] at hr
    split_ifs at hr
    simp only [Option.some.injEq] at hr
    rw [← hr]
  | cons now clock ih =>
    intro r hr
    by_cases hc : (s.active && decide (now < deadline)) = true
    · cases hrec : WaitForPrintingCompletedLoop s deadline clock with
      | none => simp [WaitForPrintingCompletedLoop, h, hc, hrec] at hr
      | some q =>
        simp only [WaitForPrintingCompletedLoop, h, hc, hrec, if_true, Option.map_some',
          Option.some.injEq] at hr
        simp only [Bool.false_eq_true, if_false, Option.some.injEq] at hr
        rw [← hr]
        exact ih q hrec
    · simp only [Bool.not_eq_true] at hc
      simp only [WaitForPrintingCompletedLoop, hc, Bool.false_eq_true, if_false,
        Option.some.injEq] at hr
      rw [← hr]

/-- While "status updated and not printing" is false, the completion wait of an active
driver returns false as soon as the clock shows a value at or past the deadline. -/
theorem WaitForPrintingCompletedLoop_returns (s : Plabel)
    (h : (s.status_updated && !s.is_printing) = false) (deadline : Int) :
    ∀ (clock : List Int), (∃ t ∈ clock, deadline ≤ t) →
      ∃ n, WaitForPrintingCompletedLoop s deadline clock = some (false, n) := by
  intro clock
  induction clock with
  | nil => intro hex; obtain ⟨t, ht, _⟩ := hex; cases ht
  | cons now clock ih =>
    intro hex
    simp only [WaitForPrintingCompletedLoop, h]
    by_cases hc : (s.active && decide (now < deadline)) = true
    · have hrest : ∃ t ∈ clock, deadline ≤ t := by
        obtain ⟨t, ht, hle⟩ := hex
        rcases List.mem_cons.1 ht with heq | hmem
        · exfalso
          simp only [Bool.and_eq_true, decide_eq_true_eq] at hc
          omega
        · exact ⟨t, hmem, hle⟩
      obtain ⟨n, hn⟩ := ih hrest
      refine ⟨n + 1, ?_⟩
      simp [hc, hn]
    · exact ⟨0, by simp [hc]⟩

/-- C7 (as stated, refuted): in the scenario `New()` with `Simulate = true`, then
`Invalidate()`, `Initialize()`, `RequestStatus()`, the status wait answers false; after
`PrintAndFeed()` the flag `status_updated` is false, not true, and
`WaitForPrintingCompleted(50)` answers false on the clock 0, 0, 100 and answers true on
no clock at all. -/
theorem simulated_print_wait_answers_false :
    simulated.Simulate = true ∧ simulated.active = true ∧
    WaitForPrinterStatus (RequestStatus (Initialize (Invalidate simulated))) 50 [0, 0, 100] =
      some (false, 1) ∧
    (PrintAndFeed (RequestStatus (Initialize (Invalidate simulated)))).status_updated = false ∧
    (Print (RequestStatus (Initialize (Invalidate simulated)))).status_updated = false ∧
    WaitForPrintingCompleted (PrintAndFeed (RequestStatus (Initialize (Invalidate simulated))))
      50 [0, 0, 100] = some (false, 1) ∧
    ¬ ∃ (clock : List Int) (n : Nat),
      WaitForPrintingCompleted (PrintAndFeed (RequestStatus (Initialize (Invalidate simulated))))
        50 clock = some (true, n) := by
  refine ⟨rfl, rfl, by decide, by decide, by decide, by decide, ?_⟩
  rintro ⟨clock, n, hw⟩
  cases clock with
  | nil => simp [WaitForPrintingCompleted] at hw
  | cons start rest =>
    simp only [WaitForPrintingCompleted] at hw
    have := WaitForPrintingCompletedLoop_false _ (by decide) _ rest (true, n) hw
    exact Bool.noConfusion this

/-- C7 (amended): in simulate mode `Print()` and `PrintAndFeed()` write nothing, set
`StatusCode` to `STATUS_PRINTING_COMPLETED` and leave `status_updated` false (cleared by
`ResetStatus`) and `is_printing` as it was. With no status frame arriving,
`WaitForPrintingCompleted` then never answers true, and for an active driver it returns
false once the clock shows a value at or past `start_time + timeout`. -/
theorem simulated_print_sets_status_code_only (s : Plabel) (hsim : s.Simulate = true) :
    ((Print s).status_updated = false ∧ (Print s).is_printing = s.is_printing ∧
      (Print s).StatusCode = STATUS_PRINTING_COMPLETED ∧ (Print s).device = s.device) ∧
    ((PrintAndFeed s).status_updated = false ∧ (PrintAndFeed s).is_printing = s.is_printing ∧
      (PrintAndFeed s).StatusCode = STATUS_PRINTING_COMPLETED ∧
      (PrintAndFeed s).device = s.device) ∧
    (∀ (timeout : Nat) (clock : List Int) (r : Bool × Nat),
      (WaitForPrintingCompleted (Print s) timeout clock = some r → r.1 = false) ∧
      (WaitForPrintingCompleted (PrintAndFeed s) timeout clock = some r → r.1 = false)) ∧
    (∀ (timeout : Nat) (start_time : Int) (clock : List Int),
      (∃ t ∈ clock, start_time + (timeout : Int) ≤ t) →
      (∃ n, WaitForPrintingCompleted (Print s) timeout (start_time :: clock) =
        some (false, n)) ∧
      (∃ n, WaitForPrintingCompleted (PrintAndFeed s) timeout (start_time :: clock) =
        some (false, n))) := by
  have hP : (Print s).status_updated = false ∧ (Print s).is_printing = s.is_printing ∧
      (Print s).StatusCode = STATUS_PRINTING_COMPLETED ∧ (Print s).device = s.device := by
    simp [Print, SendCommand, ResetStatus, hsim]
  have hF : (PrintAndFeed s).status_updated = false ∧
      (PrintAndFeed s).is_printing = s.is_printing ∧
      (PrintAndFeed s).StatusCode = STATUS_PRINTING_COMPLETED ∧
      (PrintAndFeed s).device = s.device := by
    simp [PrintAndFeed, SendCommand, ResetStatus, hsim]
  have cP : ((Print s).status_updated && !(Print s).is_printing) = false := by
    rw [hP.1]; rfl
  have cF : ((PrintAndFeed s).status_updated && !(PrintAndFeed s).is_printing) = false := by
    rw [hF.1]; rfl
  refine ⟨hP, hF, ?_, ?_⟩
  · intro timeout clock r
    cases clock with
    | nil => simp [WaitForPrintingCompleted]
    | cons start rest =>
      exact ⟨WaitForPrintingCompletedLoop_false _ cP _ rest r,
        WaitForPrintingCompletedLoop_false _ cF _ rest r⟩
  · intro timeout start_time clock hex
    exact ⟨WaitForPrintingCompletedLoop_returns _ cP _ clock hex,
      WaitForPrintingCompletedLoop_returns _ cF _ clock hex⟩

theorem simulated_print_sets_status_code_only_witness :
    (PrintAndFeed simulated).status_updated = false ∧
    (PrintAndFeed simulated).StatusCode = STATUS_PRINTING_COMPLETED ∧
    ∃ n, WaitForPrintingCompleted (PrintAndFeed simulated) 50 [0, 0, 100] = some (false, n) :=
  ⟨(simulated_print_sets_status_code_only simulated rfl).2.1.1,
   (simulated_print_sets_status_code_only simulated rfl).2.1.2.2.1,
   ((simulated_print_sets_status_code_only simulated rfl).2.2.2 50 0 [0, 100]
      ⟨100, by decide, by decide⟩).2⟩

/-- C8: `GetModelInformation` is a total function that returns the catalog row for the
codes `0x59`, `0x64`, `0x65` and `0x67` and, for every other code, the placeholder with
`IsValid = false`, `ModelName = "Unknown"`, all capability fields zero or false, and
`ModelCode` echoing the input. -/
theorem GetModelInformation_catalog (model_code : Nat) :
    GetModelInformation 0x59 = ⟨0x59, true, "PT-P1230PC", 64, 180, false, 4, 12⟩ ∧
    GetModelInformation 0x64 = ⟨0x64, true, "PT-H500", 128, 180, true, 4, 24⟩ ∧
    GetModelInformation 0x65 = ⟨0x65, true, "PT-E500", 128, 180, true, 4, 24⟩ ∧
    GetModelInformation 0x67 = ⟨0x67, true, "PT-P700", 128, 180, true, 4, 24⟩ ∧
    (model_code ≠ 0x59 → model_code ≠ 0x64 → model_code ≠ 0x65 → model_code ≠ 0x67 →
      GetModelInformation model_code = ⟨model_code, false, "Unknown", 0, 0, false, 0, 0⟩) := by
  refine ⟨rfl, rfl, rfl, rfl, ?_⟩
  intro h1 h2 h3 h4
  simp [GetModelInformation, model_map, PRINTER_P1230PC, PRINTER_H500, PRINTER_E500,
    PRINTER_P700, ModelInformation.zero, h1, h2, h3, h4]

theorem GetModelInformation_catalog_witness :
    GetModelInformation 0x66 = ⟨0x66, false, "Unknown", 0, 0, false, 0, 0⟩ :=
  (GetModelInformation_catalog 0x66).2.2.2.2 (by decide) (by decide) (by decide) (by decide)

/-- C9: at 180 dpi `MediaWidthToMaxPixel` gives 0 for the widths 4 and 6, 70 for 12, 112
for 18, 128 for 24 and 0 for every other width; at any other resolution it gives 0 for
every width. -/
theorem MediaWidthToMaxPixel_table (media_width dpi : Nat) :
    MediaWidthToMaxPixel 4 180 = 0 ∧ MediaWidthToMaxPixel 6 180 = 0 ∧
    MediaWidthToMaxPixel 12 180 = 70 ∧ MediaWidthToMaxPixel 18 180 = 112 ∧
    MediaWidthToMaxPixel 24 180 = 128 ∧
    (media_width ≠ 4 → media_width ≠ 6 → media_width ≠ 12 → media_width ≠ 18 →
      media_width ≠ 24 → MediaWidthToMaxPixel media_width 180 = 0) ∧
    (dpi ≠ 180 → MediaWidthToMaxPixel media_width dpi = 0) := by
  refine ⟨rfl, rfl, rfl, rfl, rfl, ?_, ?_⟩
  · intro h1 h2 h3 h4 h5
    simp [MediaWidthToMaxPixel, media_map, h1, h2, h3, h4, h5]
  · intro h
    simp [MediaWidthToMaxPixel, h]

theorem MediaWidthToMaxPixel_table_witness :
    MediaWidthToMaxPixel 9 180 = 0 ∧ MediaWidthToMaxPixel 24 360 = 0 :=
  ⟨(MediaWidthToMaxPixel_table 9 360).2.2.2.2.2.1 (by decide) (by decide) (by decide)
     (by decide) (by decide),
   (MediaWidthToMaxPixel_table 24 360).2.2.2.2.2.2 (by decide)⟩

/-- C10: `RequestStatus()`, `Print()` and `PrintAndFeed()` each return with
`status_updated` false, in every driver state. When `Simulate` is false each appends
exactly one write to the device log, namely `1B 69 53`, `0C` and `1A` respectively. The
write is made from the state `ResetStatus` produced, in which the flag is already false
and the device log is still the original one. -/
theorem status_commands_clear_then_send (s : Plabel) :
    ((RequestStatus s).status_updated = false ∧ (Print s).status_updated = false ∧
      (PrintAndFeed s).status_updated = false) ∧
    (s.Simulate = false →
      (RequestStatus s).device = s.device ++ [[0x1b, 0x69, 0x53]] ∧
      (Print s).device = s.device ++ [[0x0c]] ∧
      (PrintAndFeed s).device = s.device ++ [[0x1a]]) ∧
    ((ResetStatus s).status_updated = false ∧ (ResetStatus s).device = s.device ∧
      RequestStatus s = SendCommand (ResetStatus s) [0x1b, 0x69, 0x53] ∧
      (s.Simulate = false → Print s = SendCommand (ResetStatus s) [0x0c]) ∧
      (s.Simulate = false → PrintAndFeed s = SendCommand (ResetStatus s) [0x1a])) := by
  refine ⟨⟨?_, ?_, ?_⟩, ?_, ⟨rfl, rfl, rfl, ?_, ?_⟩⟩
  · simp only [RequestStatus, SendCommand, ResetStatus]; split_ifs <;> rfl
  · simp only [Print, SendCommand, ResetStatus]; split_ifs <;> rfl
  · simp only [PrintAndFeed, SendCommand, ResetStatus]; split_ifs <;> rfl
  · intro h
    simp [RequestStatus, Print, PrintAndFeed, SendCommand, ResetStatus, h]
  · intro h
    simp [Print, SendCommand, ResetStatus, h]
  · intro h
    simp [PrintAndFeed, SendCommand, ResetStatus, h]

theorem status_commands_clear_then_send_witness :
    (RequestStatus New).device = [[0x1b, 0x69, 0x53]] ∧
    (Print New).device = [[0x0c]] ∧ (PrintAndFeed New).device = [[0x1a]] :=
  (status_commands_clear_then_send New).2.1 rfl

/-! ## Properties of the command encoders -/

/-- Masking with `0xff` keeps the low byte. -/
theorem and_0xff_eq_mod (n : Nat) : n &&& 0xff = n % 256 := by
  have h : (0xff : Nat) = 2 ^ 8 - 1 := by norm_num
  rw [h, Nat.and_pow_two_sub_one_eq_mod]

/-- `copy` of a 16-byte line fills the 16-byte window with the line itself. -/
theorem copyIntoZeroed_full (d : List Nat) (hd : d.length = 16) : copyIntoZeroed 16 d = d := by
  simp [copyIntoZeroed, hd, List.take_of_length_le (Nat.le_of_eq hd)]

/-- What `SendCommand` does to the device log. -/
theorem SendCommand_device (s : Plabel) (c : List Nat) :
    (SendCommand s c).device = if s.Simulate then s.device else s.device ++ [c] := by
  simp only [SendCommand]
  split_ifs <;> rfl

/-- `SendCommand` touches no field but the device log. -/
theorem SendCommand_frame (s : Plabel) (c : List Nat) :
    (SendCommand s c).status_updated = s.status_updated ∧
    (SendCommand s c).is_printing = s.is_printing ∧
    (SendCommand s c).StatusCode = s.StatusCode ∧
    (SendCommand s c).MaxPrintingWidth = s.MaxPrintingWidth ∧
    (SendCommand s c).Simulate = s.Simulate := by
  simp only [SendCommand]
  split_ifs <;> exact ⟨rfl, rfl, rfl, rfl, rfl⟩

/-- In simulate mode `SendCommand` is the identity. -/
theorem SendCommand_simulate (s : Plabel) (c : List Nat) (h : s.Simulate = true) :
    SendCommand s c = s := by
  simp [SendCommand, h]

/-- C11: for a 16-byte raster line `d`, `SendRasterGraphics` sends exactly the 19 bytes
`47 10 00` followed by `d` when the latched `ModelInformation.UseCompression` is false,
and exactly the 20 bytes `47 11 00 10` followed by `d` when it is true; the line is
carried literally in both cases. -/
theorem SendRasterGraphics_framing (s : Plabel) (d : List Nat) (hd : d.length = 16) :
    (s.ModelInformation.UseCompression = false →
      SendRasterGraphics s d = SendCommand s ([0x47, 0x10, 0x00] ++ d) ∧
      ([0x47, 0x10, 0x00] ++ d).length = 19 ∧
      (s.Simulate = false →
        (SendRasterGraphics s d).device = s.device ++ [[0x47, 0x10, 0x00] ++ d])) ∧
    (s.ModelInformation.UseCompression = true →
      SendRasterGraphics s d = SendCommand s ([0x47, 0x11, 0x00, 0x10] ++ d) ∧
      ([0x47, 0x11, 0x00, 0x10] ++ d).length = 20 ∧
      (s.Simulate = false →
        (SendRasterGraphics s d).device = s.device ++ [[0x47, 0x11, 0x00, 0x10] ++ d])) := by
  constructor
  · intro hc
    have he : SendRasterGraphics s d = SendCommand s ([0x47, 0x10, 0x00] ++ d) := by
      simp only [SendRasterGraphics, hc, SendRasterGraphicsUncompressed,
        copyIntoZeroed_full d hd]
      rfl
    refine ⟨he, by simp [hd], ?_⟩
    intro hs
    rw [he, SendCommand_device, hs]
    rfl
  · intro hc
    have he : SendRasterGraphics s d = SendCommand s ([0x47, 0x11, 0x00, 0x10] ++ d) := by
      simp only [SendRasterGraphics, hc, SendRasterGraphicsCompressed,
        copyIntoZeroed_full d hd]
      rfl
    refine ⟨he, by simp [hd], ?_⟩
    intro hs
    rw [he, SendCommand_device, hs]
    rfl

theorem SendRasterGraphics_framing_witness :
    (SendRasterGraphics New (List.replicate 16 0xaa)).device =
      [[0x47, 0x10, 0x00] ++ List.replicate 16 0xaa] :=
  ((SendRasterGraphics_framing New (List.replicate 16 0xaa) rfl).1 rfl).2.2 rfl

/-- C12: `SetPrintInformation(media_type, media_width, is_starting_page, raster_number)`
sends exactly the 13 bytes `1B 69 7A v t w 00 r0 r1 r2 r3 s 00` with `t = media_type`,
`w = media_width`, `v = 0x80 | (0x02 if media_type != 0) | (0x04 if media_width != 0)`,
`r0..r3` the little-endian bytes of the 32-bit `raster_number` and `s = 1` exactly when
`is_starting_page`. -/
theorem SetPrintInformation_bytes (s : Plabel) (media_type media_width : Nat)
    (is_starting_page : Bool) (raster_number : Nat) (hr : raster_number < 2 ^ 32) :
    ∃ v r0 r1 r2 r3 sp : Nat,
      SetPrintInformation s media_type media_width is_starting_page raster_number =
        SendCommand s [0x1B, 0x69, 0x7A, v, media_type, media_width, 0x00,
          r0, r1, r2, r3, sp, 0x00] ∧
      [0x1B, 0x69, 0x7A, v, media_type, media_width, 0x00,
          r0, r1, r2, r3, sp, 0x00].length = 13 ∧
      v = 0x80 ||| (if media_type ≠ 0 then 0x02 else 0) |||
        (if media_width ≠ 0 then 0x04 else 0) ∧
      r0 < 256 ∧ r1 < 256 ∧ r2 < 256 ∧ r3 < 256 ∧
      r0 + 256 * r1 + 65536 * r2 + 16777216 * r3 = raster_number ∧
      sp = (if is_starting_page then 1 else 0) ∧
      (s.Simulate = false →
        (SetPrintInformation s media_type media_width is_starting_page raster_number).device =
          s.device ++ [[0x1B, 0x69, 0x7A, v, media_type, media_width, 0x00,
            r0, r1, r2, r3, sp, 0x00]]) := by
  refine ⟨0x80 ||| (if media_type ≠ 0 then 0x02 else 0) |||
      (if media_width ≠ 0 then 0x04 else 0),
    raster_number % 256, raster_number / 256 % 256, raster_number / 65536 % 256,
    raster_number / 16777216 % 256, if is_starting_page then 1 else 0, ?_⟩
  have he : SetPrintInformation s media_type media_width is_starting_page raster_number =
      SendCommand s [0x1B, 0x69, 0x7A,
        0x80 ||| (if media_type ≠ 0 then 0x02 else 0) |||
          (if media_width ≠ 0 then 0x04 else 0), media_type, media_width, 0x00,
        raster_number % 256, raster_number / 256 % 256, raster_number / 65536 % 256,
        raster_number / 16777216 % 256, if is_starting_page then 1 else 0, 0x00] := by
    simp only [SetPrintInformation, and_0xff_eq_mod, Nat.shiftRight_eq_div_pow, Nat.mod_mod,
      PI_RECOVER, PI_KIND, PI_WIDTH, MEDIA_TYPE_NO_TAPE]
    by_cases h1 : media_type = 0 <;> by_cases h2 : media_width = 0 <;>
      simp [h1, h2, Nat.pos_of_ne_zero]
  refine ⟨he, rfl, rfl, Nat.mod_lt _ (by norm_num), Nat.mod_lt _ (by norm_num),
    Nat.mod_lt _ (by norm_num), Nat.mod_lt _ (by norm_num), ?_, rfl, ?_⟩
  · have h32 : (2 : Nat) ^ 32 = 4294967296 := by norm_num
    rw [h32] at hr
    omega
  · intro hs
    rw [he, SendCommand_device, hs]
    rfl

theorem SetPrintInformation_bytes_witness :
    ∃ v r0 r1 r2 r3 sp : Nat,
      (SetPrintInformation New MEDIA_TYPE_LAMINATED 12 true 0x01020304).device =
        [[0x1B, 0x69, 0x7A, v, MEDIA_TYPE_LAMINATED, 12, 0x00, r0, r1, r2, r3, sp, 0x00]] ∧
      v = 0x86 ∧ r0 + 256 * r1 + 65536 * r2 + 16777216 * r3 = 0x01020304 := by
  obtain ⟨v, r0, r1, r2, r3, sp, _, _, hv, _, _, _, _, hsum, _, hdev⟩ :=
    SetPrintInformation_bytes New MEDIA_TYPE_LAMINATED 12 true 0x01020304 (by norm_num)
  exact ⟨v, r0, r1, r2, r3, sp, hdev rfl, by rw [hv]; decide, hsum⟩

/-- C13: the serialized size of `PrinterStatus` is 32 bytes, and a 32-byte buffer `b` is
decoded by field position, multi-byte fields little-endian: head mark `b[0]`, size `b[1]`,
manufacturer `b[2]`, series `b[3]`, model `b[4]`, country `b[5]`, error code
`b[8] + 256*b[9]`, media width `b[10]`, media type `b[11]`, media length `b[17]`, status
code `b[18]`, phase type `b[19]`, phase number `b[20] + 256*b[21]`, notification `b[22]`,
tape colour `b[24]`, text colour `b[25]`, hardware setting the little-endian value of
`b[26..29]`. Here `b[i]` is written `b.getD i 0`. -/
theorem binaryRead_layout (b : List Nat) (hb : b.length = 32) :
    PrinterStatus.binarySize = 32 ∧
    ∃ r : PrinterStatus, binaryRead b = some r ∧
      r.PrintHeadMark = b.getD 0 0 ∧ r.Size = b.getD 1 0 ∧
      r.ManufacturerCode = b.getD 2 0 ∧ r.SeriesCode = b.getD 3 0 ∧
      r.ModelCode = b.getD 4 0 ∧ r.CountryCode = b.getD 5 0 ∧
      r.ErrorCode = b.getD 8 0 + 256 * b.getD 9 0 ∧
      r.MediaWidth = b.getD 10 0 ∧ r.MediaType = b.getD 11 0 ∧
      r.MediaLength = b.getD 17 0 ∧ r.StatusCode = b.getD 18 0 ∧
      r.PhaseType = b.getD 19 0 ∧
      r.PhaseNumber = b.getD 20 0 + 256 * b.getD 21 0 ∧
      r.NotificationCode = b.getD 22 0 ∧ r.TapeColor = b.getD 24 0 ∧
      r.TextColor = b.getD 25 0 ∧
      r.HwSetting = b.getD 26 0 + 256 * b.getD 27 0 + 65536 * b.getD 28 0 +
        16777216 * b.getD 29 0 := by
  have hsize : PrinterStatus.binarySize = 32 := rfl
  refine ⟨hsize, (decodePrinterStatus b).1, ?_, rfl, rfl, rfl, rfl, rfl, rfl, rfl, rfl, rfl,
    rfl, rfl, rfl, rfl, rfl, rfl, rfl, rfl⟩
  have ht : b.take 32 = b := List.take_of_length_le (Nat.le_of_eq hb)
  simp [binaryRead, hsize, hb, ht]

theorem binaryRead_layout_witness :
    ∃ r : PrinterStatus, binaryRead (List.range 32) = some r ∧
      r.ModelCode = 4 ∧ r.ErrorCode = 8 + 256 * 9 ∧ r.StatusCode = 18 := by
  obtain ⟨r, hr, _, _, _, _, hm, _, he, _, _, _, hs, _⟩ :=
    (binaryRead_layout (List.range 32) rfl).2
  exact ⟨r, hr, hm, he, hs⟩

/-- C17: in simulate mode no command operation writes to the device: `SendCommand` with
any bytes and every command built on it leave the device log as it was (the commands
that send only are then the identity on the whole driver state). When `Simulate` is
false, `SendCommand(c)` appends exactly the one write `c`. -/
theorem simulate_writes_nothing (s : Plabel) (c : List Nat) :
    (s.Simulate = true →
      SendCommand s c = s ∧ Invalidate s = s ∧ Initialize s = s ∧
      (RequestStatus s).device = s.device ∧
      (∀ mode, SwitchDynamicCommandMode s mode = s) ∧
      SwitchRasterMode s = s ∧ SwitchEscpMode s = s ∧
      (∀ media_type media_width is_starting_page raster_number,
        SetPrintInformation s media_type media_width is_starting_page raster_number = s) ∧
      (∀ cut mirror, SetCutMirror s cut mirror = s) ∧
      (∀ no_chain_printing special_tape no_buffer_clearing,
        SetAdvancedModeSettings s no_chain_printing special_tape no_buffer_clearing = s) ∧
      (∀ margin_dots, SetFeedMargins s margin_dots = s) ∧
      SetCompression s = s ∧ SendZeroRasterGraphics s = s ∧
      (∀ raster_data, SendRasterGraphics s raster_data = s) ∧
      (Print s).device = s.device ∧ (PrintAndFeed s).device = s.device) ∧
    (s.Simulate = false → (SendCommand s c).device = s.device ++ [c]) := by
  constructor
  · intro h
    have key : ∀ bytes, SendCommand s bytes = s := fun bytes => SendCommand_simulate s bytes h
    refine ⟨key c, key _, key _, ?_, fun _ => key _, key _, key _, fun _ _ _ _ => key _,
      fun _ _ => key _, fun _ _ _ => key _, fun _ => key _, key _, key _, ?_, ?_, ?_⟩
    · simp [RequestStatus, SendCommand, ResetStatus, h]
    · intro raster_data
      simp only [SendRasterGraphics, SendRasterGraphicsCompressed,
        SendRasterGraphicsUncompressed]
      split_ifs <;> exact key _
    · simp [Print, SendCommand, ResetStatus, h]
    · simp [PrintAndFeed, SendCommand, ResetStatus, h]
  · intro h
    rw [SendCommand_device, h]
    rfl

theorem simulate_writes_nothing_witness :
    (SendCommand simulated [0x1b, 0x40]).device = [] ∧
    (SendCommand New [0x1b, 0x40]).device = [[0x1b, 0x40]] :=
  ⟨by rw [((simulate_writes_nothing simulated [0x1b, 0x40]).1 rfl).1]; rfl,
   (simulate_writes_nothing New [0x1b, 0x40]).2 rfl⟩

/-- C18: `SetCutMirror(cut, mirror)` sends exactly the 4 bytes `1B 69 4D f`, where bit 6 of
`f` is set exactly when `cut`, bit 7 exactly when `mirror`, and every other bit of `f` is
0; so `f` is `0x00`, `0x40`, `0x80` or `0xC0`. -/
theorem SetCutMirror_bytes (s : Plabel) (cut mirror : Bool) :
    ∃ f : Nat,
      SetCutMirror s cut mirror = SendCommand s [0x1B, 0x69, 0x4D, f] ∧
      f.testBit 6 = cut ∧ f.testBit 7 = mirror ∧
      (∀ k, k ≠ 6 → k ≠ 7 → f.testBit k = false) ∧
      f = (if cut then 0x40 else 0x00) + (if mirror then 0x80 else 0x00) ∧
      (s.Simulate = false →
        (SetCutMirror s cut mirror).device = s.device ++ [[0x1B, 0x69, 0x4D, f]]) := by
  have hbits : ∀ k, k ≠ 6 → k ≠ 7 →
      (0 : Nat).testBit k = false ∧ (2 ^ 6 : Nat).testBit k = false ∧
      (2 ^ 7 : Nat).testBit k = false ∧ (2 ^ 6 ||| 2 ^ 7 : Nat).testBit k = false := by
    intro k h6 h7
    refine ⟨Nat.zero_testBit k, Nat.testBit_two_pow_of_ne (Ne.symm h6),
      Nat.testBit_two_pow_of_ne (Ne.symm h7), ?_⟩
    rw [Nat.testBit_or, Nat.testBit_two_pow_of_ne (Ne.symm h6),
      Nat.testBit_two_pow_of_ne (Ne.symm h7)]
    rfl
  have hdev : ∀ f : Nat, s.Simulate = false →
      (SendCommand s [0x1B, 0x69, 0x4D, f]).device = s.device ++ [[0x1B, 0x69, 0x4D, f]] := by
    intro f hs
    rw [SendCommand_device, hs]
    rfl
  cases cut <;> cases mirror
  · exact ⟨0, rfl, by decide, by decide, fun k h6 h7 => (hbits k h6 h7).1, rfl, hdev 0⟩
  · exact ⟨2 ^ 7, by simp [SetCutMirror], by decide, by decide,
      fun k h6 h7 => (hbits k h6 h7).2.2.1, by decide, hdev _⟩
  · exact ⟨2 ^ 6, by simp [SetCutMirror], by decide, by decide,
      fun k h6 h7 => (hbits k h6 h7).2.1, by decide, hdev _⟩
  · exact ⟨2 ^ 6 ||| 2 ^ 7, by simp [SetCutMirror], by decide, by decide,
      fun k h6 h7 => (hbits k h6 h7).2.2.2, by decide, hdev _⟩

/-- C19: for every 16-bit value `d`, `SetFeedMargins(d)` sends exactly the 5 bytes
`1B 69 64 lo hi` with `lo = d mod 256` and `hi = d / 256`, and `lo + 256*hi = d`. -/
theorem SetFeedMargins_bytes (s : Plabel) (d : Nat) (hd : d < 65536) :
    SetFeedMargins s d = SendCommand s [0x1B, 0x69, 0x64, d % 256, d / 256] ∧
    [0x1B, 0x69, 0x64, d % 256, d / 256].length = 5 ∧
    d % 256 < 256 ∧ d / 256 < 256 ∧ d % 256 + 256 * (d / 256) = d ∧
    (s.Simulate = false →
      (SetFeedMargins s d).device = s.device ++ [[0x1B, 0x69, 0x64, d % 256, d / 256]]) := by
  have hhi : d / 256 % 256 = d / 256 := Nat.mod_eq_of_lt (by omega)
  have he : SetFeedMargins s d = SendCommand s [0x1B, 0x69, 0x64, d % 256, d / 256] := by
    simp only [SetFeedMargins, and_0xff_eq_mod, Nat.shiftRight_eq_div_pow, Nat.mod_mod]
    norm_num [hhi]
  refine ⟨he, rfl, by omega, by omega, by omega, ?_⟩
  intro hs
  rw [he, SendCommand_device, hs]
  rfl

theorem SetFeedMargins_bytes_witness :
    (SetFeedMargins New 0x1234).device = [[0x1B, 0x69, 0x64, 0x34, 0x12]] :=
  (SetFeedMargins_bytes New 0x1234 (by norm_num)).2.2.2.2.2 rfl

/-- C20: with `Simulate` false, `Invalidate()` sends exactly 100 bytes `0x00`,
`Initialize()` sends `1B 40`, `SwitchDynamicCommandMode(m)` sends `1B 69 61 m` for every
`m` (`SwitchRasterMode` with `m = 0x01`, `SwitchEscpMode` with `m = 0x00`) and
`SetCompression()` sends `4D 02`; in every driver state none of them changes
`status_updated`, `is_printing`, `StatusCode` or `MaxPrintingWidth`. -/
theorem session_commands_bytes (s : Plabel) (m : Nat) :
    (s.Simulate = false →
      (∃ zeros : List Nat, (Invalidate s).device = s.device ++ [zeros] ∧
        zeros.length = 100 ∧ ∀ x ∈ zeros, x = 0x00) ∧
      (Initialize s).device = s.device ++ [[0x1B, 0x40]] ∧
      (SwitchDynamicCommandMode s m).device = s.device ++ [[0x1B, 0x69, 0x61, m]] ∧
      (SwitchRasterMode s).device = s.device ++ [[0x1B, 0x69, 0x61, 0x01]] ∧
      (SwitchEscpMode s).device = s.device ++ [[0x1B, 0x69, 0x61, 0x00]] ∧
      (SetCompression s).device = s.device ++ [[0x4D, 0x02]]) ∧
    (∀ op ∈ [Invalidate s, Initialize s, SwitchDynamicCommandMode s m, SwitchRasterMode s,
        SwitchEscpMode s, SetCompression s],
      op.status_updated = s.status_updated ∧ op.is_printing = s.is_printing ∧
      op.StatusCode = s.StatusCode ∧ op.MaxPrintingWidth = s.MaxPrintingWidth) := by
  constructor
  · intro hs
    have key : ∀ bytes, (SendCommand s bytes).device = s.device ++ [bytes] := by
      intro bytes
      rw [SendCommand_device, hs]
      rfl
    refine ⟨⟨List.replicate 100 0, key _, List.length_replicate _ _, ?_⟩, key _, key _,
      key _, key _, key _⟩
    intro x hx
    exact List.eq_of_mem_replicate hx
  · intro op hop
    have key : ∀ bytes,
        (SendCommand s bytes).status_updated = s.status_updated ∧
        (SendCommand s bytes).is_printing = s.is_printing ∧
        (SendCommand s bytes).StatusCode = s.StatusCode ∧
        (SendCommand s bytes).MaxPrintingWidth = s.MaxPrintingWidth := fun bytes =>
      ⟨(SendCommand_frame s bytes).1, (SendCommand_frame s bytes).2.1,
        (SendCommand_frame s bytes).2.2.1, (SendCommand_frame s bytes).2.2.2.1⟩
    simp only [List.mem_cons, List.mem_singleton, List.not_mem_nil, or_false] at hop
    rcases hop with h | h | h | h | h | h <;> rw [h] <;> exact key _

theorem session_commands_bytes_witness :
    (Initialize New).device = [[0x1B, 0x40]] ∧
    (SwitchDynamicCommandMode New 0x03).device = [[0x1B, 0x69, 0x61, 0x03]] ∧
    (SetCompression New).device = [[0x4D, 0x02]] :=
  ⟨((session_commands_bytes New 0x03).1 rfl).2.1,
   ((session_commands_bytes New 0x03).1 rfl).2.2.1,
   ((session_commands_bytes New 0x03).1 rfl).2.2.2.2.2⟩

/-! ## Properties of the wait primitives -/

/-- While `status_updated` is false, the status wait never answers true. -/
theorem WaitForPrinterStatusLoop_false (s : Plabel) (h : s.status_updated = false)
    (deadline : Int) :
    ∀ (clock : List Int) (r : Bool × Nat),
      WaitForPrinterStatusLoop s deadline clock = some r → r.1 = false := by
  intro clock
  induction clock with
  | nil =>
    intro r hr
    simp only [WaitForPrinterStatusLoop] at hr
    split_ifs at hr
    simp only [Option.some.injEq] at hr
    rw [← hr]
  | cons now clock ih =>
    intro r hr
    by_cases hc : (s.active && decide (now < deadline)) = true
    · cases hrec : WaitForPrinterStatusLoop s deadline clock with
      | none => simp [WaitForPrinterStatusLoop, h, hc, hrec] at hr
      | some q =>
        simp only [WaitForPrinterStatusLoop, h, hc, hrec, if_true, Option.map_some',
          Option.some.injEq] at hr
        simp only [Bool.false_eq_true, if_false, Option.some.injEq] at hr
        rw [← hr]
        exact ih q hrec
    · simp only [Bool.not_eq_true] at hc
      simp only [WaitForPrinterStatusLoop, hc, Bool.false_eq_true, if_false,
        Option.some.injEq] at hr
      rw [← hr]

/-- While `status_updated` is false, the status wait returns false as soon as the clock
shows a value at or past the deadline. -/
theorem WaitForPrinterStatusLoop_returns (s : Plabel) (h : s.status_updated = false)
    (deadline : Int) :
    ∀ (clock : List Int), (∃ t ∈ clock, deadline ≤ t) →
      ∃ n, WaitForPrinterStatusLoop s deadline clock = some (false, n) := by
  intro clock
  induction clock with
  | nil => intro hex; obtain ⟨t, ht, _⟩ := hex; cases ht
  | cons now clock ih =>
    intro hex
    simp only [WaitForPrinterStatusLoop, h]
    by_cases hc : (s.active && decide (now < deadline)) = true
    · have hrest : ∃ t ∈ clock, deadline ≤ t := by
        obtain ⟨t, ht, hle⟩ := hex
        rcases List.mem_cons.1 ht with heq | hmem
        · exfalso
          simp only [Bool.and_eq_true, decide_eq_true_eq] at hc
          omega
        · exact ⟨t, hmem, hle⟩
      obtain ⟨n, hn⟩ := ih hrest
      refine ⟨n + 1, ?_⟩
      simp [hc, hn]
    · exact ⟨0, by simp [hc]⟩

/-- C15 (as stated, refuted): with the flag `status_updated` set and held, an active driver
and timeout 0, `WaitForPrinterStatus` answers false, not the value of the flag; the same
happens with a positive timeout when the first check already finds the deadline
reached. -/
theorem wait_status_deadline_before_flag :
    statusReady.active = true ∧ statusReady.status_updated = true ∧
    WaitForPrinterStatus statusReady 0 [5, 5] = some (false, 0) ∧
    WaitForPrinterStatus statusReady 50 [0, 60] = some (false, 0) ∧
    ¬ (∀ (s : Plabel) (timeout : Nat) (clock : List Int) (r : Bool × Nat),
        s.active = true → WaitForPrinterStatus s timeout clock = some r →
        r.1 = s.status_updated) := by
  refine ⟨rfl, rfl, by decide, by decide, ?_⟩
  intro h
  have h1 := h statusReady 0 [5, 5] (false, 0) rfl (by decide)
  revert h1
  decide

/-- C15 (amended): `WaitForPrinterStatus` tests the deadline before the flag. For an active
driver whose `status_updated` holds one value during the call: when the first check finds
the clock before `start_time + timeout`, the result is the flag (true at once and without
sleeping when it is set; when it is clear the call never answers true and returns false
once the clock shows the deadline). With timeout 0 the call returns false without sleeping
whatever the flag. Whenever `active` is false it returns false without sleeping. -/
theorem WaitForPrinterStatus_result (s : Plabel) (timeout : Nat) (start_time now : Int)
    (clock : List Int) :
    (s.active = true → now < start_time + (timeout : Int) → s.status_updated = true →
      WaitForPrinterStatus s timeout (start_time :: now :: clock) = some (true, 0)) ∧
    (s.active = true → s.status_updated = false →
      (∀ (c : List Int) (r : Bool × Nat), WaitForPrinterStatus s timeout c = some r →
        r.1 = false) ∧
      ((∃ t ∈ now :: clock, start_time + (timeout : Int) ≤ t) →
        ∃ n, WaitForPrinterStatus s timeout (start_time :: now :: clock) = some (false, n))) ∧
    (timeout = 0 → start_time ≤ now →
      WaitForPrinterStatus s timeout (start_time :: now :: clock) = some (false, 0)) ∧
    (s.active = false →
      WaitForPrinterStatus s timeout (start_time :: clock) = some (false, 0)) := by
  refine ⟨?_, ?_, ?_, ?_⟩
  · intro ha hlt hu
    simp [WaitForPrinterStatus, WaitForPrinterStatusLoop, ha, hlt, hu]
  · intro _ hu
    constructor
    · intro c r hr
      cases c with
      | nil => simp [WaitForPrinterStatus] at hr
      | cons st rest => exact WaitForPrinterStatusLoop_false s hu _ rest r hr
    · intro hex
      exact WaitForPrinterStatusLoop_returns s hu _ (now :: clock) hex
  · intro h0 hle
    subst h0
    simp only [WaitForPrinterStatus, WaitForPrinterStatusLoop, Nat.cast_zero, add_zero]
    have hnot : decide (now < start_time) = false := by
      simp only [decide_eq_false_iff_not, not_lt]
      exact hle
    rw [hnot, Bool.and_false]
    rfl
  · intro ha
    cases clock with
    | nil => simp [WaitForPrinterStatus, WaitForPrinterStatusLoop, ha]
    | cons t rest => simp [WaitForPrinterStatus, WaitForPrinterStatusLoop, ha]

theorem WaitForPrinterStatus_result_witness :
    WaitForPrinterStatus statusReady 50 [0, 0, 100] = some (true, 0) ∧
    (∃ n, WaitForPrinterStatus New 50 [0, 0, 100] = some (false, n)) ∧
    WaitForPrinterStatus statusReady 0 [5, 5] = some (false, 0) :=
  ⟨(WaitForPrinterStatus_result statusReady 50 0 0 [100]).1 rfl (by decide) rfl,
   ((WaitForPrinterStatus_result New 50 0 0 [100]).2.1 rfl rfl).2
     ⟨100, by decide, by decide⟩,
   (WaitForPrinterStatus_result statusReady 0 5 5 []).2.2.1 rfl (by decide)⟩

/-- C16: `WaitForPrintingCompleted` succeeds exactly on "status updated and not printing".
It answers true only if `status_updated` is true and `is_printing` false. For an active
driver whose state is held during the call, a timeout greater than 0 and a first check
that finds the clock before `start_time + timeout`, whatever it returns equals
`status_updated && !is_printing`: it returns true at once when the condition holds, and,
when the condition does not hold, false once the clock shows the deadline. -/
theorem WaitForPrintingCompleted_result (s : Plabel) (timeout : Nat)
    (start_time now : Int) (clock : List Int)
    (hactive : s.active = true) (hpos : 0 < timeout)
    (hfirst : now < start_time + (timeout : Int)) :
    (∀ (c : List Int) (r : Bool × Nat), WaitForPrintingCompleted s timeout c = some r →
      r.1 = true → s.status_updated = true ∧ s.is_printing = false) ∧
    (∀ r : Bool × Nat,
      WaitForPrintingCompleted s timeout (start_time :: now :: clock) = some r →
      r.1 = (s.status_updated && !s.is_printing)) ∧
    ((s.status_updated && !s.is_printing) = true →
      WaitForPrintingCompleted s timeout (start_time :: now :: clock) = some (true, 0)) ∧
    ((s.status_updated && !s.is_printing) = false →
      (∃ t ∈ clock, start_time + (timeout : Int) ≤ t) →
      ∃ n, WaitForPrintingCompleted s timeout (start_time :: now :: clock) =
        some (false, n)) := by
  have _ := hpos
  have htrue : (s.status_updated && !s.is_printing) = true →
      WaitForPrintingCompleted s timeout (start_time :: now :: clock) = some (true, 0) := by
    intro hc
    simp [WaitForPrintingCompleted, WaitForPrintingCompletedLoop, hactive, hfirst, hc]
  have honly : ∀ (c : List Int) (r : Bool × Nat),
      WaitForPrintingCompleted s timeout c = some r → r.1 = true →
      (s.status_updated && !s.is_printing) = true := by
    intro c r hr ht
    by_contra hc
    simp only [Bool.not_eq_true] at hc
    cases c with
    | nil => simp [WaitForPrintingCompleted] at hr
    | cons st rest =>
      have := WaitForPrintingCompletedLoop_false s hc _ rest r hr
      rw [this] at ht
      exact Bool.noConfusion ht
  refine ⟨?_, ?_, htrue, ?_⟩
  · intro c r hr ht
    have := honly c r hr ht
    simpa using this
  · intro r hr
    cases hc : (s.status_updated && !s.is_printing) with
    | true =>
      rw [htrue hc] at hr
      simp only [Option.some.injEq] at hr
      rw [← hr]
    | false =>
      exact WaitForPrintingCompletedLoop_false s hc _ (now :: clock) r hr
  · intro hc hex
    have hex2 : ∃ t ∈ now :: clock, start_time + (timeout : Int) ≤ t := by
      obtain ⟨t, ht, hle⟩ := hex
      exact ⟨t, List.mem_cons_of_mem _ ht, hle⟩
    exact WaitForPrintingCompletedLoop_returns s hc _ (now :: clock) hex2

theorem WaitForPrintingCompleted_result_witness :
    WaitForPrintingCompleted statusReady 50 [0, 0, 100] = some (true, 0) ∧
    ∃ n, WaitForPrintingCompleted New 50 [0, 0, 100] = some (false, n) :=
  ⟨(WaitForPrintingCompleted_result statusReady 50 0 0 [100] rfl (by decide)
      (by decide)).2.2.1 rfl,
   (WaitForPrintingCompleted_result New 50 0 0 [100] rfl (by decide) (by decide)).2.2.2 rfl
     ⟨100, by decide, by decide⟩⟩

/-! ## Properties of the raster packing -/

/-- Setting one bit of a line, as the packing loop does for position `q0`, turns on
exactly the bit `q0` of the line read most-significant bit first. -/
theorem lineBit_set (line : List Nat) (q0 q : Nat) (h : q0 / 8 < line.length) :
    lineBit (line.set (q0 / 8) (line.getD (q0 / 8) 0 ||| (1 <<< (7 - q0 % 8)))) q =
      (lineBit line q || decide (q = q0)) := by
  unfold lineBit
  simp only [List.getD_eq_getElem?_getD, List.getElem?_set]
  by_cases hq : q0 / 8 = q / 8
  · rw [if_pos hq, if_pos h]
    simp only [Option.getD_some, Nat.testBit_or, Nat.one_shiftLeft, Nat.testBit_two_pow, hq]
    congr 1
    by_cases hqq : q = q0
    · subst hqq; simp
    · have : ¬ (7 - q0 % 8 = 7 - q % 8) := by omega
      simp [this, hqq]
  · rw [if_neg hq]
    have : q ≠ q0 := by
      intro hc; apply hq; rw [hc]
    simp [this]

/-- Reading a byte of a line whose bytes are below 256 gives a value below 256. -/
theorem getD_lt_256 (l : List Nat) (i : Nat) (hl : ∀ b ∈ l, b < 256) : l.getD i 0 < 256 := by
  rw [List.getD_eq_getElem?_getD]
  cases hg : l[i]? with
  | none => simp
  | some v => simpa using hl v (List.getElem?_mem hg)

/-- The packing loop keeps every byte of the line below 256. -/
theorem set_bit_lt (line : List Nat) (octet k : Nat) (hk : k ≤ 7)
    (hl : ∀ b ∈ line, b < 256) :
    ∀ b ∈ line.set octet (line.getD octet 0 ||| (1 <<< k)), b < 256 := by
  intro b hb
  rcases List.mem_or_eq_of_mem_set hb with hm | he
  · exact hl b hm
  · rw [he]
    have h1 : line.getD octet 0 < 2 ^ 8 := getD_lt_256 line octet hl
    have h2 : (1 <<< k : Nat) < 2 ^ 8 := by
      rw [Nat.one_shiftLeft]
      exact Nat.pow_lt_pow_right (by norm_num) (by omega)
    have h3 := Nat.or_lt_two_pow h1 h2
    simpa using h3

/-- The packing loop on a column that fits: started at `index` on a 16-byte line, with
`index + padding + len(pixels)` at most 128, it ends without a range error, keeps the
length and the byte range, and turns on exactly the bits of the black pixels, pixel `i`
at position `index + padding + i`. -/
theorem SendFile_pack_spec (padding : Nat) :
    ∀ (pixels : List Bool) (index : Nat) (line : List Nat),
      line.length = 16 → (∀ b ∈ line, b < 256) → index + padding + pixels.length ≤ 128 →
      ∃ packed, SendFile_pack padding pixels index line = some packed ∧
        packed.length = 16 ∧ (∀ b ∈ packed, b < 256) ∧
        ∀ q, lineBit packed q =
          (lineBit line q ||
            (decide (index + padding ≤ q ∧ q < index + padding + pixels.length) &&
              pixels.getD (q - (index + padding)) false)) := by
  intro pixels
  induction pixels with
  | nil =>
    intro index line hlen hlt _
    refine ⟨line, rfl, hlen, hlt, ?_⟩
    intro q
    have : ¬ (index + padding ≤ q ∧ q < index + padding + ([] : List Bool).length) := by
      simp only [List.length_nil, Nat.add_zero]; omega
    simp [this]
  | cons black rest ih =>
    intro index line hlen hlt hfit
    simp only [List.length_cons] at hfit
    have hsum : (index + padding) % 256 = index + padding := Nat.mod_eq_of_lt (by omega)
    have hnext : (index + 1) % 256 = index + 1 := Nat.mod_eq_of_lt (by omega)
    have htail : ∀ q, (decide (index + 1 + padding ≤ q ∧ q < index + 1 + padding + rest.length) &&
          rest.getD (q - (index + 1 + padding)) false) =
        (decide (index + padding ≤ q ∧ q < index + padding + (rest.length + 1)) &&
          decide (q ≠ index + padding) &&
          (black :: rest).getD (q - (index + padding)) false) := by
      intro q
      by_cases h1 : index + 1 + padding ≤ q
      · have e : q - (index + padding) = (q - (index + 1 + padding)) + 1 := by omega
        rw [e, List.getD_cons_succ]
        have hne : q ≠ index + padding := by omega
        by_cases h2 : q < index + 1 + padding + rest.length
        · have h3 : index + padding ≤ q ∧ q < index + padding + (rest.length + 1) := by omega
          simp [h1, h2, h3, hne]
        · have h3 : ¬ (index + padding ≤ q ∧ q < index + padding + (rest.length + 1)) := by
            omega
          simp [h2, h3]
      · by_cases h4 : q = index + padding
        · simp [h1, h4]
        · have h3 : ¬ (index + padding ≤ q ∧ q < index + padding + (rest.length + 1)) := by
            omega
          simp [h1, h3]
    cases black with
    | false =>
      obtain ⟨packed, hp, hpl, hpb, hbits⟩ := ih (index + 1) line hlen hlt (by omega)
      refine ⟨packed, ?_, hpl, hpb, ?_⟩
      · simp only [SendFile_pack, hnext]
        exact hp
      · intro q
        rw [hbits q, htail q]
        by_cases h4 : q = index + padding
        · subst h4; simp
        · simp [h4]
    | true =>
      have hoct : (index + padding) / 8 < line.length := by rw [hlen]; omega
      obtain ⟨packed, hp, hpl, hpb, hbits⟩ := ih (index + 1)
        (line.set ((index + padding) / 8)
          (line.getD ((index + padding) / 8) 0 ||| (1 <<< (7 - (index + padding) % 8))))
        (by rw [List.length_set]; exact hlen)
        (set_bit_lt line _ _ (by omega) hlt) (by omega)
      refine ⟨packed, ?_, hpl, hpb, ?_⟩
      · simp only [SendFile_pack, hnext, hsum, hoct, if_true]
        exact hp
      · intro q
        rw [hbits q, htail q, lineBit_set line (index + padding) q hoct]
        by_cases h4 : q = index + padding
        · subst h4
          have h3 : index + padding ≤ index + padding ∧
              index + padding < index + padding + (rest.length + 1) := by omega
          simp [h3]
        · simp [h4]

/-- For a column of at most 128 rows the padding is `(128 - n) / 2`. -/
theorem SendFile_padding_small (n : Nat) (hn : n ≤ 128) :
    SendFile_padding (n : Int) = (128 - n) / 2 := by
  unfold SendFile_padding toByte DATA_LINE_PIXEL_WIDTH
  have h1 : ((128 : Nat) : Int) - (n : Int) = ((128 - n : Nat) : Int) := by omega
  rw [h1]
  have h2 : Int.tdiv ((128 - n : Nat) : Int) 2 = (((128 - n) / 2 : Nat) : Int) := rfl
  rw [h2]
  omega

/-- No bit is set in the zeroed line `make([]byte, DATA_LINE_BUFFER_LENGTH)`. -/
theorem lineBit_zeroed (q : Nat) :
    lineBit (List.replicate DATA_LINE_BUFFER_LENGTH 0) q = false := by
  unfold lineBit
  have h : (List.replicate DATA_LINE_BUFFER_LENGTH 0).getD (q / 8) 0 = 0 := by
    rw [List.getD_eq_getElem?_getD, List.getElem?_replicate]
    split_ifs <;> rfl
  rw [h]
  exact Nat.zero_testBit _

set_option maxRecDepth 100000 in
/-- The full-height column black, white, black, white, ... packs to sixteen bytes
`0b10101010`. -/
theorem SendFile_line_alternating :
    SendFile_line (alternatingColumn 128) = some (List.replicate 16 0b10101010) := by
  rfl

/-- C14: the raster packing of `SendFile` is most-significant bit first and invertible.
For every pixel column `x` of `n <= 128` rows (`true` = black), with padding
`p = (128 - n) / 2`, the loop ends with a 16-byte line whose bit `7 - ((i + p) mod 8)` of
byte `(i + p) / 8` equals `x[i]` for every `i < n` and whose every other bit is 0, so that
reading the bits `p .. p+n-1` most-significant bit first gives `x` back. For `n = 128` and
the column black, white, black, white, ... byte 0 is `0b10101010`. -/
theorem SendFile_line_roundtrip (x : List Bool) (hn : x.length ≤ 128) :
    ∃ packed, SendFile_line x = some packed ∧ packed.length = 16 ∧
      (∀ b ∈ packed, b < 256) ∧
      (∀ i, i < x.length →
        (packed.getD ((i + (128 - x.length) / 2) / 8) 0).testBit
          (7 - (i + (128 - x.length) / 2) % 8) = x.getD i false) ∧
      (∀ q, q < (128 - x.length) / 2 ∨ (128 - x.length) / 2 + x.length ≤ q →
        (packed.getD (q / 8) 0).testBit (7 - q % 8) = false) ∧
      unpackLine packed ((128 - x.length) / 2) x.length = x ∧
      (SendFile_line (alternatingColumn 128)).map (fun l => l.getD 0 0) =
        some 0b10101010 := by
  obtain ⟨packed, hp, hlen, hbytes, hbits⟩ :=
    SendFile_pack_spec ((128 - x.length) / 2) x 0 (List.replicate DATA_LINE_BUFFER_LENGTH 0)
      (List.length_replicate _ _)
      (fun b hb => by rw [List.eq_of_mem_replicate hb]; norm_num)
      (by omega)
  have hin : ∀ i, i < x.length →
      lineBit packed (i + (128 - x.length) / 2) = x.getD i false := by
    intro i hi
    rw [hbits, lineBit_zeroed]
    have h1 : 0 + (128 - x.length) / 2 ≤ i + (128 - x.length) / 2 ∧
        i + (128 - x.length) / 2 < 0 + (128 - x.length) / 2 + x.length := by omega
    have h2 : i + (128 - x.length) / 2 - (0 + (128 - x.length) / 2) = i := by omega
    rw [decide_eq_true h1, h2, Bool.false_or, Bool.true_and]
  have hout : ∀ q, q < (128 - x.length) / 2 ∨ (128 - x.length) / 2 + x.length ≤ q →
      lineBit packed q = false := by
    intro q hq
    rw [hbits, lineBit_zeroed]
    have h1 : ¬ (0 + (128 - x.length) / 2 ≤ q ∧
        q < 0 + (128 - x.length) / 2 + x.length) := by omega
    rw [decide_eq_false h1, Bool.false_or, Bool.false_and]
  refine ⟨packed, ?_, hlen, hbytes, hin, hout, ?_, ?_⟩
  · unfold SendFile_line
    rw [SendFile_padding_small x.length hn]
    exact hp
  · apply List.ext_getElem
    · simp [unpackLine]
    · intro i h1 h2
      simp only [unpackLine, List.getElem_map, List.getElem_range]
      rw [hin i h2]
      simp [List.getD_eq_getElem?_getD, List.getElem?_eq_getElem h2]
  · rw [SendFile_line_alternating]
    rfl

theorem SendFile_line_roundtrip_witness :
    ∃ packed, SendFile_line [true, false, true, true] = some packed ∧
      unpackLine packed 62 4 = [true, false, true, true] := by
  obtain ⟨packed, hp, _, _, _, _, hu, _⟩ :=
    SendFile_line_roundtrip [true, false, true, true] (by decide)
  exact ⟨packed, hp, hu⟩

/-! ## Properties of the cropping and of reachable states -/

/-- The number of rows left by the cropping: the height itself when it does not exceed the
width, and otherwise the width plus one exactly when the excess is odd. -/
theorem SendFile_crop_rows (h w : Nat) :
    (SendFile_crop 0 (h : Int) w).max_y - (SendFile_crop 0 (h : Int) w).min_y =
      if h ≤ w then (h : Int) else ((w + (h - w) % 2 : Nat) : Int) := by
  unfold SendFile_crop
  by_cases hle : h ≤ w
  · have hn : ¬ ((h : Int) - 0 > (w : Int)) := by omega
    simp only [hn, if_false, if_pos hle]
    omega
  · have hp : (h : Int) - 0 > (w : Int) := by omega
    have h1 : (h : Int) - 0 - (w : Int) = ((h - w : Nat) : Int) := by omega
    have h2 : Int.tdiv ((h - w : Nat) : Int) 2 = (((h - w) / 2 : Nat) : Int) := rfl
    simp only [hp, if_true, if_neg hle, h1, h2]
    omega

/-- C21 (the code at the failing input): an image 131 rows high on a printer with
`MaxPrintingWidth = 128` is cropped with `margin = 1` to the rows 1 to 129, that is 129
rows, one more than the printable width; so the cropped row count is not bounded by the
width for all heights and widths. The same happens whenever the excess `h - w` is odd,
for instance a height of 129. -/
theorem crop_leaves_one_row_too_many :
    (SendFile_crop 0 131 128).margin = 1 ∧
    (SendFile_crop 0 131 128).min_y = 1 ∧ (SendFile_crop 0 131 128).max_y = 130 ∧
    (SendFile_crop 0 131 128).max_y - (SendFile_crop 0 131 128).min_y = 129 ∧
    (SendFile_crop 0 129 128).max_y - (SendFile_crop 0 129 128).min_y = 129 ∧
    ¬ (∀ (h w : Nat),
        (SendFile_crop 0 (h : Int) w).max_y - (SendFile_crop 0 (h : Int) w).min_y ≤
          (w : Int)) := by
  refine ⟨by decide, by decide, by decide, by decide, by decide, ?_⟩
  intro hall
  have h1 := hall 131 128
  revert h1
  decide

set_option maxRecDepth 100000 in
/-- C22 (the code at the failing input): with `MaxPrintingWidth = 128` an image column
of 129 black rows is not cropped to 128 rows (`margin = 0`, 129 rows remain), the padding
is `byte((128 - 129) / 2) = 0`, and for the last row `index = 128` the byte index
`(index + padding) / 8` is 16, which is not below `DATA_LINE_BUFFER_LENGTH`: the packing
loop runs out of range. A column of 128 rows is packed without error. -/
theorem packing_out_of_range_at_height_129 :
    (SendFile_crop 0 129 128).height = 129 ∧ SendFile_padding 129 = 0 ∧
    (128 + SendFile_padding 129) % 256 / 8 = 16 ∧ ¬ (16 < DATA_LINE_BUFFER_LENGTH) ∧
    SendFile_column 0 (List.replicate 129 true) 128 = none ∧
    SendFile_column 0 (List.replicate 128 true) 128 = some (List.replicate 16 0xff) := by
  refine ⟨by decide, by decide, by decide, by decide, ?_, ?_⟩
  · rfl
  · rfl

/-- No catalog entry and no placeholder has a native pixel width above 128. -/
theorem GetModelInformation_PixelWidth_le (model_code : Nat) :
    (GetModelInformation model_code).PixelWidth ≤ DATA_LINE_PIXEL_WIDTH := by
  simp only [GetModelInformation, model_map]
  split_ifs <;> simp [DATA_LINE_PIXEL_WIDTH, ModelInformation.zero]

/-- One pass of the status reader keeps `MaxPrintingWidth` within the line width. -/
theorem ProcessStatusIter_width_le (s : Plabel) (read : Option PrinterStatus)
    (h : s.MaxPrintingWidth ≤ DATA_LINE_PIXEL_WIDTH) :
    (ProcessStatusIter s read).MaxPrintingWidth ≤ DATA_LINE_PIXEL_WIDTH := by
  cases read with
  | none => exact h
  | some f =>
    cases hl : s.InitalSettings with
    | true =>
      rw [(ProcessStatusIter_latched s (some f) hl).2]
      exact h
    | false =>
      rw [(ProcessStatusIter_unlatched s f hl).2]
      exact Nat.le_trans (Nat.min_le_left _ _) (GetModelInformation_PixelWidth_le _)

/-- A run of the status reader keeps `MaxPrintingWidth` within the line width. -/
theorem ProcessStatus_width_le (reads : List (Option PrinterStatus)) :
    ∀ s : Plabel, s.MaxPrintingWidth ≤ DATA_LINE_PIXEL_WIDTH →
      (ProcessStatus s reads).MaxPrintingWidth ≤ DATA_LINE_PIXEL_WIDTH := by
  induction reads with
  | nil => intro s h; exact h
  | cons read rest ih =>
    intro s h
    simp only [ProcessStatus]
    split_ifs
    · exact ih _ (ProcessStatusIter_width_le s read h)
    · exact h

/-- No single operation changes `MaxPrintingWidth` to a value above the line width. -/
theorem applyOp_width_le (s : Plabel) (op : Op)
    (h : s.MaxPrintingWidth ≤ DATA_LINE_PIXEL_WIDTH) :
    (applyOp s op).MaxPrintingWidth ≤ DATA_LINE_PIXEL_WIDTH := by
  have key : ∀ (t : Plabel) (bytes : List Nat), t.MaxPrintingWidth = s.MaxPrintingWidth →
      (SendCommand t bytes).MaxPrintingWidth ≤ DATA_LINE_PIXEL_WIDTH := by
    intro t bytes ht
    rw [(SendCommand_frame t bytes).2.2.2.1, ht]
    exact h
  cases op with
  | ProcessStatus reads => exact ProcessStatus_width_le reads s h
  | SetSimulate value => exact h
  | SetVerbose value => exact h
  | ResetStatus => exact h
  | RequestStatus => exact key _ _ rfl
  | Print =>
    simp only [applyOp, Print]
    split_ifs
    · exact key _ _ rfl
    · exact key _ _ rfl
  | PrintAndFeed =>
    simp only [applyOp, PrintAndFeed]
    split_ifs
    · exact key _ _ rfl
    · exact key _ _ rfl
  | SendRasterGraphics raster_data =>
    simp only [applyOp, SendRasterGraphics]
    split_ifs
    · exact key _ _ rfl
    · exact key _ _ rfl
  | _ => exact key _ _ rfl

/-- C23: in every state reached from `New()` by any sequence of status-reader runs (on
valid or invalid frames with any field values, or failed reads) and driver operations,
`MaxPrintingWidth` is at most `DATA_LINE_PIXEL_WIDTH = 128`. -/
theorem MaxPrintingWidth_le_line_width (ops : List Op) :
    (runOps New ops).MaxPrintingWidth ≤ DATA_LINE_PIXEL_WIDTH ∧ DATA_LINE_PIXEL_WIDTH = 128 := by
  have gen : ∀ (l : List Op) (s : Plabel), s.MaxPrintingWidth ≤ DATA_LINE_PIXEL_WIDTH →
      (runOps s l).MaxPrintingWidth ≤ DATA_LINE_PIXEL_WIDTH := by
    intro l
    induction l with
    | nil => intro s h; exact h
    | cons op rest ih =>
      intro s h
      exact ih _ (applyOp_width_le s op h)
  exact ⟨gen ops New (by decide), rfl⟩

end plabel
